import Mathlib

/-!
Shallow embedding of the content-visibility filter of
`src/components/HiddenPreferences/useApplyHiddenPreferences.ts`
(`filterPreferences` and the tally/`hiddenCount` computation of
`useApplyHiddenPreferences`).

Conventions used throughout the embedding:
* JavaScript numbers appearing as ids and nsfw levels are modelled as `Nat`
  (they are non-negative integers in the source).
* A TypeScript field read through `?.` or defaulted with `??` (so absent or
  `null` at runtime) is modelled as an `Option`; `null` and `undefined` are
  collapsed into `none` because the source only distinguishes them through
  `??` / truthiness, which treat them alike.
* A JavaScript `Map<number, boolean>` is modelled as an association list;
  `get` returns the stored value or `false` (`undefined` is falsy) when the
  key is absent.
* The mutable `hidden` tally record is modelled by returning, from each
  filter/map callback, the delta it adds to the record; the phase combinators
  sum the deltas in evaluation order.
-/

/-- A JavaScript `Map<number, boolean>` (insertion list; keys unique in
practice, first binding wins on lookup which matches `Map` semantics after
the merge below puts overriding bindings first). -/
abbrev HidMap : Type := List (Nat × Bool)

/-- `map.get(k)` used in a boolean position: the stored value, or falsy
`undefined` when absent. -/
def HidMap.get (m : HidMap) (k : Nat) : Bool :=
  match List.lookup k m with
  | some b => b
  | none => false

/-- The empty map. -/
def HidMap.empty : HidMap := []

/-- Modelled from the spec: `Flags.intersects` (from `~/shared/utils`, not in
the excerpt) — "visibility requires bit-intersection with the viewer's mask":
two bitmasks intersect when they share a set bit. -/
def Flags.intersects (a b : Nat) : Bool := a &&& b != 0

/-- Modelled from the spec: `Flags.maxValue` (from `~/shared/utils`, not in
the excerpt) — "the viewer's maximum enabled tier (Flags.maxValue of the
browsing mask)": the highest set bit of the mask, `0` for the empty mask. -/
def Flags.maxValue (n : Nat) : Nat :=
  (List.range 32).foldl (fun acc i => if n.testBit i then 2 ^ i else acc) 0

/-- Modelled from the spec: `parseBitwiseBrowsingLevel` (from
`~/shared/constants/browsingLevel.constants`, not in the excerpt) — splits
the browsing-level bitmask into the list of enabled single-tier values (one
per set bit). -/
def parseBitwiseBrowsingLevel (n : Nat) : List Nat :=
  (List.range 32).filterMap fun i => if n.testBit i then some (2 ^ i) else none

/-- `Math.max(...parseBitwiseBrowsingLevel(browsingLevel))`.  For the empty
mask `Math.max()` is `-Infinity`; since the only use is the comparison
`i.nsfwLevel > maxSelectedLevel` against a non-negative level, `-1` is an
exact stand-in for `-Infinity`. -/
def maxSelectedLevel (browsingLevel : Nat) : Int :=
  match parseBitwiseBrowsingLevel browsingLevel with
  | [] => -1
  | l => l.foldl (fun a b => max a (Int.ofNat b)) (-1)

/-- Modelled from the spec: `NsfwLevel.PG13` (from `~/server/common/enums`,
not in the excerpt) — the spec's example "browsingLevel mask = PG|PG13
(bits 1|2)" fixes PG = 1, PG13 = 2. -/
def NsfwLevel.PG13 : Nat := 2

/-- The part of the session user the filter reads. -/
structure CivitaiSessionUser where
  id : Nat
  isModerator : Bool
deriving Repr, DecidableEq

/-- `a ?? b` on possibly-absent numbers. -/
def jsOr (a b : Option Nat) : Option Nat :=
  match a with
  | some v => some v
  | none => b

/-- Truthiness of a possibly-absent number (`undefined`, `null` and `0` are
falsy). -/
def jsTruthy (a : Option Nat) : Bool :=
  match a with
  | some v => v != 0
  | none => false

/-- `userId === currentUser?.id` for a definitely-present numeric `userId`. -/
def ownerEq (userId : Nat) (cu : Option CivitaiSessionUser) : Bool :=
  match cu with
  | some c => userId == c.id
  | none => false

/-- `userId === currentUser?.id` where `userId` itself may be `undefined`:
strict equality also holds when both sides are `undefined`. -/
def ownerEqOpt (userId : Option Nat) (cu : Option CivitaiSessionUser) : Bool :=
  userId == cu.map (·.id)

/-- `map.get(userId)` guarded by truthiness of `userId`
(`userId && hiddenUsers.get(userId)`). -/
def hiddenGetOpt (m : HidMap) (userId : Option Nat) : Bool :=
  match userId with
  | some v => v != 0 && m.get v
  | none => false

/-- The `hidden` tally record initialised at the top of `filterPreferences`. -/
structure Tally where
  unprocessed : Nat := 0
  browsingLevel : Nat := 0
  models : Nat := 0
  images : Nat := 0
  tags : Nat := 0
  users : Nat := 0
  noImages : Nat := 0
deriving Repr, DecidableEq

def Tally.add (a b : Tally) : Tally :=
  ⟨a.unprocessed + b.unprocessed, a.browsingLevel + b.browsingLevel,
   a.models + b.models, a.images + b.images, a.tags + b.tags,
   a.users + b.users, a.noImages + b.noImages⟩

instance : Add Tally := ⟨Tally.add⟩

def Tally.zero : Tally := {}

/-- The sum of every counter of the tally. -/
def Tally.total (t : Tally) : Nat :=
  t.unprocessed + t.browsingLevel + t.models + t.images + t.tags + t.users + t.noImages

/-- Delta: `hidden.browsingLevel++`. -/
def tallyB : Tally := { browsingLevel := 1 }
/-- Delta: `hidden.models++`. -/
def tallyM : Tally := { models := 1 }
/-- Delta: `hidden.images++`. -/
def tallyI : Tally := { images := 1 }
/-- Delta: `hidden.images += k` (the collection cover-tag loop increments once
per hidden tag without excluding). -/
def tallyIN (k : Nat) : Tally := { images := k }
/-- Delta: `hidden.tags++`. -/
def tallyT : Tally := { tags := 1 }
/-- Delta: `hidden.users++`. -/
def tallyU : Tally := { users := 1 }
/-- Delta: `hidden.noImages++`. -/
def tallyNo : Tally := { noImages := 1 }

/-- `{ id: number }` user reference. -/
structure UserRef where
  id : Nat
deriving Repr, DecidableEq

/-- A moderated-tag descriptor (`moderatedTags` of the preferences state):
`{ id, nsfwLevel? }`. -/
structure ModTag where
  id : Nat
  nsfwLevel : Option Nat
deriving Repr, DecidableEq

/-- `HiddenPreferencesState` as read by the filter. -/
structure HiddenPreferencesState where
  hiddenModels : HidMap := HidMap.empty
  hiddenImages : HidMap := HidMap.empty
  hiddenTags : HidMap := HidMap.empty
  hiddenUsers : HidMap := HidMap.empty
  moderatedTags : List ModTag := []
  hiddenLoading : Bool := false

/-- The non-`type`/`data` arguments of `filterPreferences`. -/
structure FilterArgs where
  hiddenPreferences : HiddenPreferencesState
  browsingLevel : Nat
  showHidden : Bool := false
  showImageless : Bool := false
  disabled : Bool := false
  currentUser : Option CivitaiSessionUser := none
  allowLowerLevels : Bool := false

/-- `!!currentUser?.isModerator`. -/
def FilterArgs.isModerator (a : FilterArgs) : Bool :=
  match a.currentUser with
  | some c => c.isModerator
  | none => false

/-! ## Item shapes (the `Base*` types at the bottom of the source file) -/

/-- `BaseImage`: standalone image items.  `user?: { id }` is read only
through `image.user?.id`. -/
structure BaseImage where
  id : Nat
  userId : Option Nat := none
  user : Option UserRef := none
  tagIds : Option (List Nat) := none
  nsfwLevel : Nat
deriving Repr, DecidableEq

/-- Images nested under a `BaseModel`:
`{ id; tags?: number[]; nsfwLevel; userId?: number }`. -/
structure ModelImg where
  id : Nat
  tags : Option (List Nat) := none
  nsfwLevel : Nat
  userId : Option Nat := none
deriving Repr, DecidableEq

/-- `BaseModel`.  The declared type makes `images` mandatory but the filter
reads it as `images?.filter(...) ?? []`, so it is modelled as optional. -/
structure BaseModel where
  id : Nat
  user : UserRef
  images : Option (List ModelImg) := none
  tags : Option (List Nat) := none
  nsfwLevel : Nat
  nsfw : Bool := false
deriving Repr, DecidableEq

/-- An article cover image: `{ id; tags: number[]; nsfwLevel }`. -/
structure CoverImg where
  id : Nat
  tags : List Nat
  nsfwLevel : Nat
deriving Repr, DecidableEq

/-- `BaseArticle` (tags carry `{ id }` records). -/
structure BaseArticle where
  id : Nat
  user : UserRef
  nsfwLevel : Nat
  tags : Option (List UserRef) := none
  coverImage : Option CoverImg := none
deriving Repr, DecidableEq

/-- `BaseUser`. -/
structure BaseUser where
  id : Nat
deriving Repr, DecidableEq

/-- Images nested under collections and bounties:
`{ id; tagIds?: number[]; nsfwLevel; userId: number }` (identical shapes in
the source's two declarations). -/
structure SubImg where
  id : Nat
  tagIds : Option (List Nat) := none
  nsfwLevel : Nat
  userId : Nat
deriving Repr, DecidableEq

/-- `BaseCollection`.  `images` is destructured with a `= []` default and
`image` is `... | null`, both modelled as `Option`. -/
structure BaseCollection where
  id : Nat
  userId : Option Nat := none
  user : Option UserRef := none
  nsfwLevel : Nat
  image : Option SubImg := none
  images : Option (List SubImg) := none
deriving Repr, DecidableEq

/-- `BaseBounty`.  The declared type makes `images` mandatory but the map
phase reads it as `images?.filter(...)` (and then, unguarded,
`filteredImages.length`), so it is modelled as optional. -/
structure BaseBounty where
  id : Nat
  user : UserRef
  tags : Option (List Nat) := none
  nsfwLevel : Nat
  nsfw : Bool := false
  images : Option (List SubImg) := none
deriving Repr, DecidableEq

/-- Images nested under posts:
`{ id; tagIds?; nsfwLevel; userId?; user? }`. -/
structure PostImg where
  id : Nat
  tagIds : Option (List Nat) := none
  nsfwLevel : Nat
  userId : Option Nat := none
  user : Option UserRef := none
deriving Repr, DecidableEq

/-- `BasePost` (the source comments out `id`). -/
structure BasePost where
  userId : Option Nat := none
  user : Option UserRef := none
  nsfwLevel : Nat
  images : Option (List PostImg) := none
deriving Repr, DecidableEq

/-- `BaseTag`. -/
structure BaseTag where
  id : Nat
  nsfwLevel : Option Nat := none
deriving Repr, DecidableEq

/-! ## Phase combinators

`Array.prototype.filter` / `.map` with a tally-delta per callback call,
summed left to right, and `.map(...).filter(isDefined)` fused into a
`filterMap`-shaped phase. -/

/-- Run a filter callback over the list; return survivors (in order) and the
sum of the tally deltas. -/
def filterPhase (step : α → Bool × Tally) : List α → List α × Tally
  | [] => ([], Tally.zero)
  | a :: as =>
    let r := step a
    let rest := filterPhase step as
    (if r.1 then a :: rest.1 else rest.1, r.2 + rest.2)

/-- Run a map callback (returning `β | null`) over the list, then drop the
`null`s (`.filter(isDefined)`); return the kept images of the map and the sum
of the tally deltas. -/
def mapPhase (step : α → Option β × Tally) : List α → List β × Tally
  | [] => ([], Tally.zero)
  | a :: as =>
    let r := step a
    let rest := mapPhase step as
    (match r.1 with
     | some b => b :: rest.1
     | none => rest.1, r.2 + rest.2)

/-- Like `mapPhase` but the callback may throw (used by the bounty branch,
whose unguarded `filteredImages.length` can raise a `TypeError`); the first
throw aborts the call. -/
def mapPhaseE (step : α → Except String (Option β × Tally)) :
    List α → Except String (List β × Tally)
  | [] => .ok ([], Tally.zero)
  | a :: as =>
    match step a with
    | .error e => .error e
    | .ok r =>
      match mapPhaseE step as with
      | .error e => .error e
      | .ok rest =>
        .ok (match r.1 with
             | some b => b :: rest.1
             | none => rest.1, r.2 + rest.2)

/-! ## Per-branch callbacks -/

/-- The `models` filter callback (lines 152–174). -/
def modelFilterStep (a : FilterArgs) (m : BaseModel) : Bool × Tally :=
  let userId := m.user.id
  let isOwner := ownerEq userId a.currentUser
  if (isOwner || a.isModerator) && m.nsfwLevel == 0 then (true, Tally.zero)
  else if !Flags.intersects m.nsfwLevel a.browsingLevel then (false, tallyB)
  else if userId != 0 && a.hiddenPreferences.hiddenUsers.get userId then (false, tallyU)
  else if a.hiddenPreferences.hiddenModels.get m.id && !a.showHidden then (false, tallyM)
  else if (m.tags.getD []).any a.hiddenPreferences.hiddenTags.get then (false, tallyT)
  else (true, Tally.zero)

/-- The nested-image filter callback of the `models` map phase
(lines 177–187). -/
def modelImageStep (a : FilterArgs) (nsfw : Bool) (i : ModelImg) : Bool :=
  let userId := i.userId
  let isOwner := jsTruthy userId && ownerEqOpt userId a.currentUser
  if (isOwner || a.isModerator) && i.nsfwLevel == 0 then true
  else if nsfw && decide ((i.nsfwLevel : Int) > maxSelectedLevel a.browsingLevel) then false
  else if !nsfw && !Flags.intersects i.nsfwLevel a.browsingLevel then false
  else if a.hiddenPreferences.hiddenImages.get i.id then false
  else if (i.tags.getD []).any a.hiddenPreferences.hiddenTags.get then false
  else true

/-- `filteredImages.sort(...)` of the `models` map phase (lines 189–195):
`Array.prototype.sort` is a stable sort, and the comparator returns `0`
inside each intersection class and puts the intersecting class first, so the
result is exactly the stable two-class partition. -/
def nsfwSortImages (browsingLevel : Nat) (l : List ModelImg) : List ModelImg :=
  l.filter (fun i => Flags.intersects i.nsfwLevel browsingLevel) ++
    l.filter (fun i => !Flags.intersects i.nsfwLevel browsingLevel)

/-- `filteredImages` of the `models` map callback (lines 176–187):
`images?.filter(...) ?? []`. -/
def modelFilteredImages (a : FilterArgs) (m : BaseModel) : List ModelImg :=
  (m.images.getD []).filter (modelImageStep a m.nsfw)

/-- `sortedImages` of the `models` map callback (lines 189–195). -/
def modelSortedImages (a : FilterArgs) (m : BaseModel) : List ModelImg :=
  if m.nsfw then nsfwSortImages a.browsingLevel (modelFilteredImages a m)
  else modelFilteredImages a m

/-- The `models` map callback (lines 175–207).  `filteredImages` is sorted in
place when `x.nsfw`, so the images of the returned item are the sorted
ones. -/
def modelMapStep (a : FilterArgs) (m : BaseModel) : Option BaseModel × Tally :=
  (if (modelSortedImages a m).length != 0 || a.showImageless
   then some { m with images := some (modelSortedImages a m) }
   else none,
   if (modelSortedImages a m).length == 0 then tallyNo else Tally.zero)

/-- The `images` filter callback (lines 212–238). -/
def imageStep (a : FilterArgs) (i : BaseImage) : Bool × Tally :=
  let userId := jsOr i.userId (i.user.map (·.id))
  let isOwner := jsTruthy userId && ownerEqOpt userId a.currentUser
  if (isOwner || a.isModerator) && i.nsfwLevel == 0 then (true, Tally.zero)
  else if (if a.allowLowerLevels
           then decide (i.nsfwLevel > Flags.maxValue a.browsingLevel)
           else !Flags.intersects i.nsfwLevel a.browsingLevel) then (false, tallyB)
  else if hiddenGetOpt a.hiddenPreferences.hiddenUsers userId then (false, tallyU)
  else if a.hiddenPreferences.hiddenImages.get i.id && !a.showHidden then (false, tallyI)
  else if (i.tagIds.getD []).any a.hiddenPreferences.hiddenTags.get then (false, tallyT)
  else (true, Tally.zero)

/-- The `articles` filter callback (lines 242–271); `article.user` is a
mandatory object, hence always truthy. -/
def articleStep (a : FilterArgs) (ar : BaseArticle) : Bool × Tally :=
  let userId := ar.user.id
  let isOwner := ownerEq userId a.currentUser
  if (isOwner || a.isModerator) && ar.nsfwLevel == 0 then (true, Tally.zero)
  else if !Flags.intersects ar.nsfwLevel a.browsingLevel then (false, tallyB)
  else if a.hiddenPreferences.hiddenUsers.get ar.user.id then (false, tallyU)
  else if (ar.tags.getD []).any (fun t => a.hiddenPreferences.hiddenTags.get t.id) then
    (false, tallyT)
  else
    match ar.coverImage with
    | some ci =>
      if a.hiddenPreferences.hiddenImages.get ci.id then (false, tallyI)
      else if ci.tags.any a.hiddenPreferences.hiddenTags.get then (false, tallyT)
      else (true, Tally.zero)
    | none => (true, Tally.zero)

/-- The `users` filter callback (lines 275–282). -/
def userStep (a : FilterArgs) (u : BaseUser) : Bool × Tally :=
  if ownerEq u.id a.currentUser then (true, Tally.zero)
  else if a.hiddenPreferences.hiddenUsers.get u.id then (false, tallyU)
  else (true, Tally.zero)

/-- The `collections` filter callback (lines 290–313).  The cover-image tag
loop increments `hidden.images` once per hidden tag without excluding the
collection. -/
def collectionFilterStep (a : FilterArgs) (c : BaseCollection) : Bool × Tally :=
  let userId := jsOr c.userId (c.user.map (·.id))
  let isOwner := jsTruthy userId && ownerEqOpt userId a.currentUser
  if (isOwner || a.isModerator) && c.nsfwLevel == 0 then (true, Tally.zero)
  else if !Flags.intersects c.nsfwLevel a.browsingLevel then (false, tallyB)
  else if hiddenGetOpt a.hiddenPreferences.hiddenUsers userId then (false, tallyU)
  else
    match c.image with
    | some img =>
      if a.hiddenPreferences.hiddenImages.get img.id then (false, tallyI)
      else
        (true, tallyIN ((img.tagIds.getD []).countP
          (fun t => a.hiddenPreferences.hiddenTags.get t)))
    | none => (true, Tally.zero)

/-- The nested-image filter callback shared (textually identical modulo
owner-equality details, see each use) by the collection (lines 317–325) and
bounty (lines 368–376) map phases:
owner/moderator-with-level-0 override, bit-intersection, hidden image id,
hidden tag. -/
def subImageStep (a : FilterArgs) (i : SubImg) : Bool :=
  let isOwner := ownerEq i.userId a.currentUser
  if (isOwner || a.isModerator) && i.nsfwLevel == 0 then true
  else if !Flags.intersects i.nsfwLevel a.browsingLevel then false
  else if a.hiddenPreferences.hiddenImages.get i.id then false
  else if (i.tagIds.getD []).any a.hiddenPreferences.hiddenTags.get then false
  else true

/-- `mergedImages` of the `collections` map callback (lines 314–315):
`image ? [...images, image] : images` with the `= []` destructuring
default. -/
def collectionMergedImages (c : BaseCollection) : List SubImg :=
  match c.image with
  | some img => c.images.getD [] ++ [img]
  | none => c.images.getD []

/-- `filteredImages` of the `collections` map callback (lines 316–325). -/
def collectionFilteredImages (a : FilterArgs) (c : BaseCollection) : List SubImg :=
  (collectionMergedImages c).filter (subImageStep a)

/-- The `collections` map callback (lines 314–337): destructures `image` out
of the item (so the output has no cover image), merges it after `images`,
filters, and keeps the parent only when images remain or `showImageless`. -/
def collectionMapStep (a : FilterArgs) (c : BaseCollection) :
    Option BaseCollection × Tally :=
  (if (collectionFilteredImages a c).length != 0 || a.showImageless
   then some { c with image := none, images := some (collectionFilteredImages a c) }
   else none,
   if (collectionFilteredImages a c).length == 0 then tallyNo else Tally.zero)

/-- The `bounties` filter callback (lines 343–366); the image loop
(`bounty.images ?? []`) excludes at the first hidden image. -/
def bountyFilterStep (a : FilterArgs) (b : BaseBounty) : Bool × Tally :=
  let userId := b.user.id
  let isOwner := ownerEq userId a.currentUser
  if (isOwner || a.isModerator) && b.nsfwLevel == 0 then (true, Tally.zero)
  else if !Flags.intersects b.nsfwLevel a.browsingLevel then (false, tallyB)
  else if a.hiddenPreferences.hiddenUsers.get b.user.id then (false, tallyU)
  else if (b.images.getD []).any (fun i => a.hiddenPreferences.hiddenImages.get i.id) then
    (false, tallyI)
  else if (b.tags.getD []).any a.hiddenPreferences.hiddenTags.get then (false, tallyT)
  else (true, Tally.zero)

/-- The `bounties` map callback (lines 367–388).  `filteredImages` is
`images?.filter(...)`: when `images` is absent it is `undefined`, the
`filteredImages?.length === 0` test is false, and the unguarded
`filteredImages.length` on line 382 throws a `TypeError`. -/
def bountyMapStep (a : FilterArgs) (b : BaseBounty) :
    Except String (Option BaseBounty × Tally) :=
  match b.images with
  | none => .error "TypeError: Cannot read properties of undefined (reading length)"
  | some images =>
    .ok (if (images.filter (subImageStep a)).length != 0
         then some { b with images := some (images.filter (subImageStep a)) }
         else none,
         if (images.filter (subImageStep a)).length == 0 then tallyNo else Tally.zero)

/-- The `posts` filter callback (lines 394–407). -/
def postFilterStep (a : FilterArgs) (p : BasePost) : Bool × Tally :=
  let userId := jsOr p.userId (p.user.map (·.id))
  let isOwner := jsTruthy userId && ownerEqOpt userId a.currentUser
  if (isOwner || a.isModerator) && p.nsfwLevel == 0 then (true, Tally.zero)
  else if !Flags.intersects p.nsfwLevel a.browsingLevel then (false, tallyB)
  else if hiddenGetOpt a.hiddenPreferences.hiddenUsers userId then (false, tallyU)
  else (true, Tally.zero)

/-- The nested-image filter callback of the `posts` map phase
(lines 411–419); its owner equality has no truthiness guard, so an image with
no user matches a logged-out viewer (`undefined === undefined`). -/
def postImageStep (a : FilterArgs) (i : PostImg) : Bool :=
  let userId := jsOr i.userId (i.user.map (·.id))
  let isOwner := ownerEqOpt userId a.currentUser
  if (isOwner || a.isModerator) && i.nsfwLevel == 0 then true
  else if !Flags.intersects i.nsfwLevel a.browsingLevel then false
  else if a.hiddenPreferences.hiddenImages.get i.id then false
  else if (i.tagIds.getD []).any a.hiddenPreferences.hiddenTags.get then false
  else true

/-- The `posts` map callback (lines 408–428): a post with no `images` field
is returned unchanged; otherwise its images are filtered and the parent is
kept only when images remain or `showImageless`. -/
def postMapStep (a : FilterArgs) (p : BasePost) : Option BasePost × Tally :=
  match p.images with
  | none => (some p, Tally.zero)
  | some images =>
    (if (images.filter (postImageStep a)).length != 0 || a.showImageless
     then some { p with images := some (images.filter (postImageStep a)) }
     else none,
     if (images.filter (postImageStep a)).length == 0 then tallyNo else Tally.zero)

/-- `moderatedTagIds` of the `tags` branch (lines 433–435). -/
def moderatedTagIds (a : FilterArgs) : List Nat :=
  (a.hiddenPreferences.moderatedTags.filter
    (fun x => jsTruthy x.nsfwLevel && Flags.intersects (x.nsfwLevel.getD 0) a.browsingLevel)).map
    (·.id)

/-- The `tags` filter callback (lines 436–450). -/
def tagStep (a : FilterArgs) (t : BaseTag) : Bool × Tally :=
  if a.hiddenPreferences.hiddenTags.get t.id then (false, tallyT)
  else if jsTruthy t.nsfwLevel && decide (t.nsfwLevel.getD 0 > NsfwLevel.PG13) &&
      !(moderatedTagIds a).contains t.id then (false, tallyB)
  else (true, Tally.zero)

/-! ## The dispatch -/

/-- The `{ key, value }` pair produced by `paired(type, data)`: the content
type together with an item collection of the matching shape.  `unknown`
stands for a runtime `type` string outside the closed set (the `default`
branch never reads the collection). -/
inductive TypedData where
  | models (l : List BaseModel)
  | images (l : List BaseImage)
  | articles (l : List BaseArticle)
  | users (l : List BaseUser)
  | collections (l : List BaseCollection)
  | bounties (l : List BaseBounty)
  | posts (l : List BasePost)
  | tags (l : List BaseTag)
  | unknown (key : String)
deriving Repr, DecidableEq

/-- The `items` result: one list per content type, plus the untyped `[]`
returned by the short-circuit at the top of the function. -/
inductive ItemsOut where
  | empty
  | models (l : List BaseModel)
  | images (l : List BaseImage)
  | articles (l : List BaseArticle)
  | users (l : List BaseUser)
  | collections (l : List BaseCollection)
  | bounties (l : List BaseBounty)
  | posts (l : List BasePost)
  | tags (l : List BaseTag)
deriving Repr, DecidableEq

/-- The `models` branch (lines 150–210). -/
def modelsBranch (a : FilterArgs) (l : List BaseModel) : List BaseModel × Tally :=
  ((mapPhase (modelMapStep a) (filterPhase (modelFilterStep a) l).1).1,
   (filterPhase (modelFilterStep a) l).2 +
     (mapPhase (modelMapStep a) (filterPhase (modelFilterStep a) l).1).2)

/-- The `images` branch (lines 211–240). -/
def imagesBranch (a : FilterArgs) (l : List BaseImage) : List BaseImage × Tally :=
  filterPhase (imageStep a) l

/-- The `articles` branch (lines 241–273). -/
def articlesBranch (a : FilterArgs) (l : List BaseArticle) : List BaseArticle × Tally :=
  filterPhase (articleStep a) l

/-- The `users` branch (lines 274–287). -/
def usersBranch (a : FilterArgs) (l : List BaseUser) : List BaseUser × Tally :=
  filterPhase (userStep a) l

/-- The `collections` branch (lines 288–340). -/
def collectionsBranch (a : FilterArgs) (l : List BaseCollection) :
    List BaseCollection × Tally :=
  ((mapPhase (collectionMapStep a) (filterPhase (collectionFilterStep a) l).1).1,
   (filterPhase (collectionFilterStep a) l).2 +
     (mapPhase (collectionMapStep a) (filterPhase (collectionFilterStep a) l).1).2)

/-- The `bounties` branch (lines 341–391). -/
def bountiesBranch (a : FilterArgs) (l : List BaseBounty) :
    Except String (List BaseBounty × Tally) :=
  match mapPhaseE (bountyMapStep a) (filterPhase (bountyFilterStep a) l).1 with
  | .ok m => .ok (m.1, (filterPhase (bountyFilterStep a) l).2 + m.2)
  | .error e => .error e

/-- The `posts` branch (lines 392–431). -/
def postsBranch (a : FilterArgs) (l : List BasePost) : List BasePost × Tally :=
  ((mapPhase (postMapStep a) (filterPhase (postFilterStep a) l).1).1,
   (filterPhase (postFilterStep a) l).2 +
     (mapPhase (postMapStep a) (filterPhase (postFilterStep a) l).1).2)

/-- The `tags` branch (lines 432–456). -/
def tagsBranch (a : FilterArgs) (l : List BaseTag) : List BaseTag × Tally :=
  filterPhase (tagStep a) l

/-- `filterPreferences` (lines 113–460): the short-circuit
(`!data || disabled || hiddenPreferences.hiddenLoading`) returns an empty
list and a zero tally; otherwise the switch dispatches on the content type,
throwing on a type outside the closed set. -/
def filterPreferences (a : FilterArgs) (data : Option TypedData) :
    Except String (ItemsOut × Tally) :=
  if data.isNone || a.disabled || a.hiddenPreferences.hiddenLoading then
    .ok (.empty, Tally.zero)
  else
    match data with
    | none => .ok (.empty, Tally.zero)
    | some d =>
      match d with
      | .models l => let r := modelsBranch a l; .ok (.models r.1, r.2)
      | .images l => let r := imagesBranch a l; .ok (.images r.1, r.2)
      | .articles l => let r := articlesBranch a l; .ok (.articles r.1, r.2)
      | .users l => let r := usersBranch a l; .ok (.users r.1, r.2)
      | .collections l =>
        let r := collectionsBranch a l; .ok (.collections r.1, r.2)
      | .bounties l =>
        match bountiesBranch a l with
        | .ok r => .ok (.bounties r.1, r.2)
        | .error e => .error e
      | .posts l => let r := postsBranch a l; .ok (.posts r.1, r.2)
      | .tags l => let r := tagsBranch a l; .ok (.tags r.1, r.2)
      | .unknown _ => .error "unhandled hidden user preferences filter type"

/-- Reinterpret a produced items list as input data of the same content type
(the untyped `[]` of a short-circuit stays absent data). -/
def ItemsOut.toData : ItemsOut → Option TypedData
  | .empty => none
  | .models l => some (.models l)
  | .images l => some (.images l)
  | .articles l => some (.articles l)
  | .users l => some (.users l)
  | .collections l => some (.collections l)
  | .bounties l => some (.bounties l)
  | .posts l => some (.posts l)
  | .tags l => some (.tags l)

/-! ## The hook's tally consumption -/

/-- `new Map([...base, ...ids.map(id => [id, true])])` (lines 53–68): the
override bindings, all `true`, win over the base map; with first-binding-wins
lookup that is the override list prepended. -/
def mergeHid (base : HidMap) (ids : List Nat) : HidMap :=
  (ids.map fun id => (id, true)) ++ base

/-- The `FilterArgs` the hook assembles (lines 51–79): per-call override id
lists merged into the preference maps, the browsing-level override applied
over the system level (`browsingLevelOverride ?? systemBrowsingLevel`). -/
def hookArgs (hp : HiddenPreferencesState)
    (systemBrowsingLevel : Nat) (currentUser : Option CivitaiSessionUser)
    (showHidden showImageless disabled : Bool)
    (hiddenImagesO hiddenUsersO hiddenTagsO : List Nat)
    (browsingLevelOverride : Option Nat) (allowLowerLevels : Bool) :
    FilterArgs :=
  { hiddenPreferences :=
      { hp with
        hiddenImages :=
          if hiddenImagesO.length > 0 then mergeHid hp.hiddenImages hiddenImagesO
          else hp.hiddenImages
        hiddenUsers :=
          if hiddenUsersO.length > 0 then mergeHid hp.hiddenUsers hiddenUsersO
          else hp.hiddenUsers
        hiddenTags :=
          if hiddenTagsO.length > 0 then mergeHid hp.hiddenTags hiddenTagsO
          else hp.hiddenTags }
    browsingLevel := browsingLevelOverride.getD systemBrowsingLevel
    showHidden := showHidden, showImageless := showImageless
    disabled := disabled, currentUser := currentUser
    allowLowerLevels := allowLowerLevels }

/-- The pure data path of `useApplyHiddenPreferences` (lines 14–99): merge
the per-call override id lists into the preference maps, run
`filterPreferences`, and compute `hiddenCount` from the tally —
"We will not be counting `noImages`" (line 90). -/
def useApplyHiddenPreferencesModel (hp : HiddenPreferencesState)
    (systemBrowsingLevel : Nat) (currentUser : Option CivitaiSessionUser)
    (data : Option TypedData)
    (showHidden showImageless disabled : Bool)
    (hiddenImagesO hiddenUsersO hiddenTagsO : List Nat)
    (browsingLevelOverride : Option Nat) (allowLowerLevels : Bool) :
    Except String (ItemsOut × Nat) :=
  match filterPreferences
      (hookArgs hp systemBrowsingLevel currentUser showHidden showImageless
        disabled hiddenImagesO hiddenUsersO hiddenTagsO browsingLevelOverride
        allowLowerLevels) data with
  | .ok r =>
    .ok (r.1, r.2.browsingLevel + r.2.models + r.2.images + r.2.tags + r.2.users)
  | .error e => .error e

/-! ## Generic lemmas about the phase combinators -/

theorem filterPhase_fst (step : α → Bool × Tally) (l : List α) :
    (filterPhase step l).1 = l.filter (fun a => (step a).1) := by
  induction l with
  | nil => rfl
  | cons a as ih =>
    simp only [filterPhase, List.filter_cons]
    by_cases h : (step a).1 = true <;> simp [h, ih]

theorem filterPhase_sublist (step : α → Bool × Tally) (l : List α) :
    List.Sublist (filterPhase step l).1 l := by
  rw [filterPhase_fst]; exact List.filter_sublist l

theorem mem_filterPhase (step : α → Bool × Tally) (l : List α) (a : α) :
    a ∈ (filterPhase step l).1 ↔ a ∈ l ∧ (step a).1 = true := by
  rw [filterPhase_fst]; simp [List.mem_filter]

theorem filterPhase_eq_self (step : α → Bool × Tally) (l : List α)
    (h : ∀ a ∈ l, (step a).1 = true) : (filterPhase step l).1 = l := by
  rw [filterPhase_fst]; exact List.filter_eq_self.mpr (by simpa using h)

theorem mapPhase_fst (step : α → Option β × Tally) (l : List α) :
    (mapPhase step l).1 = l.filterMap (fun a => (step a).1) := by
  induction l with
  | nil => rfl
  | cons a as ih =>
    simp only [mapPhase, List.filterMap_cons]
    cases h : (step a).1 <;> simp [h, ih]

theorem mem_mapPhase (step : α → Option β × Tally) (l : List α) (b : β) :
    b ∈ (mapPhase step l).1 ↔ ∃ a ∈ l, (step a).1 = some b := by
  rw [mapPhase_fst]; simp [List.mem_filterMap]

theorem mapPhase_eq_self (step : α → Option α × Tally) (l : List α)
    (h : ∀ a ∈ l, (step a).1 = some a) : (mapPhase step l).1 = l := by
  induction l with
  | nil => rfl
  | cons a as ih =>
    simp only [mapPhase]
    rw [h a (List.mem_cons_self a as)]
    simpa using ih fun x hx => h x (List.mem_cons_of_mem a hx)

theorem Tally.unprocessed_add (a b : Tally) :
    (a + b).unprocessed = a.unprocessed + b.unprocessed := rfl

theorem Tally.browsingLevel_add (a b : Tally) :
    (a + b).browsingLevel = a.browsingLevel + b.browsingLevel := rfl

theorem filterPhase_snd_proj (g : Tally → Nat)
    (hadd : ∀ x y, g (x + y) = g x + g y) (hz : g Tally.zero = 0)
    (step : α → Bool × Tally) (l : List α) :
    g (filterPhase step l).2 = (l.map fun a => g (step a).2).sum := by
  induction l with
  | nil => simpa [filterPhase] using hz
  | cons a as ih => simp [filterPhase, hadd, ih]

theorem mapPhase_snd_proj (g : Tally → Nat)
    (hadd : ∀ x y, g (x + y) = g x + g y) (hz : g Tally.zero = 0)
    (step : α → Option β × Tally) (l : List α) :
    g (mapPhase step l).2 = (l.map fun a => g (step a).2).sum := by
  induction l with
  | nil => simpa [mapPhase] using hz
  | cons a as ih => simp [mapPhase, hadd, ih]

theorem sum_map_ite_eq_countP (p : α → Bool) (l : List α) :
    (l.map fun a => if p a = true then 1 else 0).sum = l.countP p := by
  induction l with
  | nil => rfl
  | cons a as ih =>
    by_cases h : p a = true <;> simp [List.countP_cons, h, ih, Nat.add_comm]

theorem filterMap_map_sublist (f : α → Option β) (g : β → γ) (g' : α → γ)
    (h : ∀ a b, f a = some b → g b = g' a) (l : List α) :
    List.Sublist ((l.filterMap f).map g) (l.map g') := by
  induction l with
  | nil => simp
  | cons a as ih =>
    rw [List.filterMap_cons, List.map_cons]
    cases hf : f a with
    | none => exact ih.cons _
    | some b => rw [List.map_cons, h a b hf]; exact ih.cons₂ _

/-! ## Per-callback characterizations -/

theorem tallyB_total : tallyB.total = 1 := rfl
theorem tallyM_total : tallyM.total = 1 := rfl
theorem tallyI_total : tallyI.total = 1 := rfl
theorem tallyT_total : tallyT.total = 1 := rfl
theorem tallyU_total : tallyU.total = 1 := rfl
theorem tallyNo_total : tallyNo.total = 1 := rfl

theorem modelFilterStep_cases (a : FilterArgs) (m : BaseModel) :
    modelFilterStep a m = (true, Tally.zero) ∨
    modelFilterStep a m = (false, tallyB) ∨
    modelFilterStep a m = (false, tallyU) ∨
    modelFilterStep a m = (false, tallyM) ∨
    modelFilterStep a m = (false, tallyT) := by
  unfold modelFilterStep
  by_cases h1 : ((ownerEq m.user.id a.currentUser || a.isModerator) &&
      m.nsfwLevel == 0) = true <;>
    by_cases h2 : (!Flags.intersects m.nsfwLevel a.browsingLevel) = true <;>
    by_cases h3 : (m.user.id != 0 &&
      a.hiddenPreferences.hiddenUsers.get m.user.id) = true <;>
    by_cases h4 : (a.hiddenPreferences.hiddenModels.get m.id && !a.showHidden) = true <;>
    by_cases h5 : ((m.tags.getD []).any a.hiddenPreferences.hiddenTags.get) = true <;>
    simp [h1, h2, h3, h4, h5]

theorem imageStep_cases (a : FilterArgs) (i : BaseImage) :
    imageStep a i = (true, Tally.zero) ∨
    imageStep a i = (false, tallyB) ∨
    imageStep a i = (false, tallyU) ∨
    imageStep a i = (false, tallyI) ∨
    imageStep a i = (false, tallyT) := by
  unfold imageStep
  by_cases h1 : ((jsTruthy (jsOr i.userId (i.user.map (·.id))) &&
      ownerEqOpt (jsOr i.userId (i.user.map (·.id))) a.currentUser || a.isModerator) &&
      i.nsfwLevel == 0) = true <;>
    by_cases h2 : (if a.allowLowerLevels
      then decide (i.nsfwLevel > Flags.maxValue a.browsingLevel)
      else !Flags.intersects i.nsfwLevel a.browsingLevel) = true <;>
    by_cases h3 : hiddenGetOpt a.hiddenPreferences.hiddenUsers
      (jsOr i.userId (i.user.map (·.id))) = true <;>
    by_cases h4 : (a.hiddenPreferences.hiddenImages.get i.id && !a.showHidden) = true <;>
    by_cases h5 : ((i.tagIds.getD []).any a.hiddenPreferences.hiddenTags.get) = true <;>
    simp [h1, h2, h3, h4, h5]

theorem articleStep_cases (a : FilterArgs) (ar : BaseArticle) :
    articleStep a ar = (true, Tally.zero) ∨
    articleStep a ar = (false, tallyB) ∨
    articleStep a ar = (false, tallyU) ∨
    articleStep a ar = (false, tallyI) ∨
    articleStep a ar = (false, tallyT) := by
  unfold articleStep
  rcases hci : ar.coverImage with _ | ci
  · by_cases h1 : ((ownerEq ar.user.id a.currentUser || a.isModerator) &&
        ar.nsfwLevel == 0) = true <;>
      by_cases h2 : (!Flags.intersects ar.nsfwLevel a.browsingLevel) = true <;>
      by_cases h3 : a.hiddenPreferences.hiddenUsers.get ar.user.id = true <;>
      by_cases h4 : ((ar.tags.getD []).any
        (fun t => a.hiddenPreferences.hiddenTags.get t.id)) = true <;>
      simp [hci, h1, h2, h3, h4]
  · by_cases h1 : ((ownerEq ar.user.id a.currentUser || a.isModerator) &&
        ar.nsfwLevel == 0) = true <;>
      by_cases h2 : (!Flags.intersects ar.nsfwLevel a.browsingLevel) = true <;>
      by_cases h3 : a.hiddenPreferences.hiddenUsers.get ar.user.id = true <;>
      by_cases h4 : ((ar.tags.getD []).any
        (fun t => a.hiddenPreferences.hiddenTags.get t.id)) = true <;>
      by_cases h5 : a.hiddenPreferences.hiddenImages.get ci.id = true <;>
      by_cases h6 : (ci.tags.any a.hiddenPreferences.hiddenTags.get) = true <;>
      simp [hci, h1, h2, h3, h4, h5, h6]

theorem userStep_cases (a : FilterArgs) (u : BaseUser) :
    userStep a u = (true, Tally.zero) ∨ userStep a u = (false, tallyU) := by
  unfold userStep
  by_cases h1 : ownerEq u.id a.currentUser = true <;>
    by_cases h2 : a.hiddenPreferences.hiddenUsers.get u.id = true <;>
    simp [h1, h2]

theorem collectionFilterStep_excluded (a : FilterArgs) (c : BaseCollection) :
    (collectionFilterStep a c).1 = false →
    collectionFilterStep a c = (false, tallyB) ∨
    collectionFilterStep a c = (false, tallyU) ∨
    collectionFilterStep a c = (false, tallyI) := by
  unfold collectionFilterStep
  rcases hci : c.image with _ | img
  · by_cases h1 : ((jsTruthy (jsOr c.userId (c.user.map (·.id))) &&
        ownerEqOpt (jsOr c.userId (c.user.map (·.id))) a.currentUser || a.isModerator) &&
        c.nsfwLevel == 0) = true <;>
      by_cases h2 : (!Flags.intersects c.nsfwLevel a.browsingLevel) = true <;>
      by_cases h3 : hiddenGetOpt a.hiddenPreferences.hiddenUsers
        (jsOr c.userId (c.user.map (·.id))) = true <;>
      simp [h1, h2, h3]
  · by_cases h1 : ((jsTruthy (jsOr c.userId (c.user.map (·.id))) &&
        ownerEqOpt (jsOr c.userId (c.user.map (·.id))) a.currentUser || a.isModerator) &&
        c.nsfwLevel == 0) = true <;>
      by_cases h2 : (!Flags.intersects c.nsfwLevel a.browsingLevel) = true <;>
      by_cases h3 : hiddenGetOpt a.hiddenPreferences.hiddenUsers
        (jsOr c.userId (c.user.map (·.id))) = true <;>
      by_cases h4 : a.hiddenPreferences.hiddenImages.get img.id = true <;>
      simp [h1, h2, h3, h4]

theorem collectionFilterStep_unprocessed (a : FilterArgs) (c : BaseCollection) :
    ((collectionFilterStep a c).2).unprocessed = 0 := by
  unfold collectionFilterStep
  rcases hci : c.image with _ | img
  · by_cases h1 : ((jsTruthy (jsOr c.userId (c.user.map (·.id))) &&
        ownerEqOpt (jsOr c.userId (c.user.map (·.id))) a.currentUser || a.isModerator) &&
        c.nsfwLevel == 0) = true <;>
      by_cases h2 : (!Flags.intersects c.nsfwLevel a.browsingLevel) = true <;>
      by_cases h3 : hiddenGetOpt a.hiddenPreferences.hiddenUsers
        (jsOr c.userId (c.user.map (·.id))) = true <;>
      simp [h1, h2, h3, tallyB, tallyU, tallyI, tallyIN, Tally.zero]
  · by_cases h1 : ((jsTruthy (jsOr c.userId (c.user.map (·.id))) &&
        ownerEqOpt (jsOr c.userId (c.user.map (·.id))) a.currentUser || a.isModerator) &&
        c.nsfwLevel == 0) = true <;>
      by_cases h2 : (!Flags.intersects c.nsfwLevel a.browsingLevel) = true <;>
      by_cases h3 : hiddenGetOpt a.hiddenPreferences.hiddenUsers
        (jsOr c.userId (c.user.map (·.id))) = true <;>
      by_cases h4 : a.hiddenPreferences.hiddenImages.get img.id = true <;>
      simp [h1, h2, h3, h4, tallyB, tallyU, tallyI, tallyIN, Tally.zero]

theorem bountyFilterStep_cases (a : FilterArgs) (b : BaseBounty) :
    bountyFilterStep a b = (true, Tally.zero) ∨
    bountyFilterStep a b = (false, tallyB) ∨
    bountyFilterStep a b = (false, tallyU) ∨
    bountyFilterStep a b = (false, tallyI) ∨
    bountyFilterStep a b = (false, tallyT) := by
  unfold bountyFilterStep
  by_cases h1 : ((ownerEq b.user.id a.currentUser || a.isModerator) &&
      b.nsfwLevel == 0) = true <;>
    by_cases h2 : (!Flags.intersects b.nsfwLevel a.browsingLevel) = true <;>
    by_cases h3 : a.hiddenPreferences.hiddenUsers.get b.user.id = true <;>
    by_cases h4 : ((b.images.getD []).any
      (fun i => a.hiddenPreferences.hiddenImages.get i.id)) = true <;>
    by_cases h5 : ((b.tags.getD []).any a.hiddenPreferences.hiddenTags.get) = true <;>
    simp [h1, h2, h3, h4, h5]

theorem postFilterStep_cases (a : FilterArgs) (p : BasePost) :
    postFilterStep a p = (true, Tally.zero) ∨
    postFilterStep a p = (false, tallyB) ∨
    postFilterStep a p = (false, tallyU) := by
  unfold postFilterStep
  by_cases h1 : ((jsTruthy (jsOr p.userId (p.user.map (·.id))) &&
      ownerEqOpt (jsOr p.userId (p.user.map (·.id))) a.currentUser || a.isModerator) &&
      p.nsfwLevel == 0) = true <;>
    by_cases h2 : (!Flags.intersects p.nsfwLevel a.browsingLevel) = true <;>
    by_cases h3 : hiddenGetOpt a.hiddenPreferences.hiddenUsers
      (jsOr p.userId (p.user.map (·.id))) = true <;>
    simp [h1, h2, h3]

theorem tagStep_cases (a : FilterArgs) (t : BaseTag) :
    tagStep a t = (true, Tally.zero) ∨
    tagStep a t = (false, tallyT) ∨
    tagStep a t = (false, tallyB) := by
  unfold tagStep
  by_cases h1 : a.hiddenPreferences.hiddenTags.get t.id = true <;>
    by_cases h2 : (jsTruthy t.nsfwLevel = true ∧ NsfwLevel.PG13 < t.nsfwLevel.getD 0) ∧
      t.id ∉ moderatedTagIds a <;>
    simp [h1, h2]

/-! ## Map-callback characterizations -/

theorem nsfwSortImages_nil (bl : Nat) : nsfwSortImages bl [] = [] := rfl

theorem modelMapStep_imageless (a : FilterArgs) (m : BaseModel)
    (h : modelFilteredImages a m = []) :
    modelMapStep a m =
      (if a.showImageless then some { m with images := some [] } else none, tallyNo) := by
  have hs : modelSortedImages a m = [] := by
    unfold modelSortedImages
    rw [h]
    cases m.nsfw <;> simp [nsfwSortImages_nil]
  unfold modelMapStep
  rw [hs]
  cases hw : a.showImageless <;> simp

theorem modelMapStep_none_delta (a : FilterArgs) (m : BaseModel)
    (h : (modelMapStep a m).1 = none) : (modelMapStep a m).2 = tallyNo := by
  unfold modelMapStep at h ⊢
  by_cases hl : ((modelSortedImages a m).length == 0) = true
  · simp [hl]
  · simp [hl] at h
    rw [h.1] at hl
    simp at hl

theorem collectionMapStep_imageless (a : FilterArgs) (c : BaseCollection)
    (h : collectionFilteredImages a c = []) :
    collectionMapStep a c =
      (if a.showImageless then some { c with image := none, images := some [] } else none,
       tallyNo) := by
  unfold collectionMapStep
  rw [h]
  cases hs : a.showImageless <;> simp

theorem collectionMapStep_none_delta (a : FilterArgs) (c : BaseCollection)
    (h : (collectionMapStep a c).1 = none) : (collectionMapStep a c).2 = tallyNo := by
  unfold collectionMapStep at h ⊢
  by_cases hl : ((collectionFilteredImages a c).length == 0) = true
  · simp [hl]
  · simp [hl] at h
    rw [h.1] at hl
    simp at hl

theorem postMapStep_imageless (a : FilterArgs) (p : BasePost) (imgs : List PostImg)
    (hi : p.images = some imgs) (h : imgs.filter (postImageStep a) = []) :
    postMapStep a p =
      (if a.showImageless then some { p with images := some [] } else none, tallyNo) := by
  unfold postMapStep
  rw [hi]
  simp only [h]
  cases hs : a.showImageless <;> simp

theorem postMapStep_noImages (a : FilterArgs) (p : BasePost) (hi : p.images = none) :
    postMapStep a p = (some p, Tally.zero) := by
  unfold postMapStep
  rw [hi]

theorem postMapStep_none_delta (a : FilterArgs) (p : BasePost)
    (h : (postMapStep a p).1 = none) : (postMapStep a p).2 = tallyNo := by
  unfold postMapStep at h ⊢
  rcases hi : p.images with _ | imgs <;> rw [hi] at h
  · simp at h
  · by_cases hl : ((imgs.filter (postImageStep a)).length == 0) = true
    · simp [hl]
    · simp [hl] at h
      rw [List.filter_eq_nil_iff.mpr (by simpa using h.1)] at hl
      simp at hl

theorem bountyMapStep_imageless (a : FilterArgs) (b : BaseBounty) (imgs : List SubImg)
    (hi : b.images = some imgs) (h : imgs.filter (subImageStep a) = []) :
    bountyMapStep a b = .ok (none, tallyNo) := by
  unfold bountyMapStep
  rw [hi]
  simp [h]

theorem bountyMapStep_none_delta (a : FilterArgs) (b : BaseBounty) (r : Option BaseBounty × Tally)
    (hr : bountyMapStep a b = .ok r) (h : r.1 = none) : r.2 = tallyNo := by
  unfold bountyMapStep at hr
  rcases hi : b.images with _ | imgs <;> rw [hi] at hr
  · simp at hr
  · by_cases hl : ((imgs.filter (subImageStep a)).length == 0) = true
    · simp [hl] at hr
      rw [← hr]
    · simp [hl] at hr
      rw [← hr] at h
      simp at h
      rw [List.filter_eq_nil_iff.mpr (by simpa using h)] at hl
      simp at hl

theorem bountyMapStep_absent (a : FilterArgs) (b : BaseBounty) (hi : b.images = none) :
    bountyMapStep a b =
      .error "TypeError: Cannot read properties of undefined (reading length)" := by
  unfold bountyMapStep
  rw [hi]

/-! ## The `unprocessed` counter is never incremented -/

theorem modelFilterStep_unprocessed (a : FilterArgs) (m : BaseModel) :
    ((modelFilterStep a m).2).unprocessed = 0 := by
  rcases modelFilterStep_cases a m with h | h | h | h | h <;> rw [h] <;> rfl

theorem imageStep_unprocessed (a : FilterArgs) (i : BaseImage) :
    ((imageStep a i).2).unprocessed = 0 := by
  rcases imageStep_cases a i with h | h | h | h | h <;> rw [h] <;> rfl

theorem articleStep_unprocessed (a : FilterArgs) (ar : BaseArticle) :
    ((articleStep a ar).2).unprocessed = 0 := by
  rcases articleStep_cases a ar with h | h | h | h | h <;> rw [h] <;> rfl

theorem userStep_unprocessed (a : FilterArgs) (u : BaseUser) :
    ((userStep a u).2).unprocessed = 0 := by
  rcases userStep_cases a u with h | h <;> rw [h] <;> rfl

theorem bountyFilterStep_unprocessed (a : FilterArgs) (b : BaseBounty) :
    ((bountyFilterStep a b).2).unprocessed = 0 := by
  rcases bountyFilterStep_cases a b with h | h | h | h | h <;> rw [h] <;> rfl

theorem postFilterStep_unprocessed (a : FilterArgs) (p : BasePost) :
    ((postFilterStep a p).2).unprocessed = 0 := by
  rcases postFilterStep_cases a p with h | h | h <;> rw [h] <;> rfl

theorem tagStep_unprocessed (a : FilterArgs) (t : BaseTag) :
    ((tagStep a t).2).unprocessed = 0 := by
  rcases tagStep_cases a t with h | h | h <;> rw [h] <;> rfl

theorem modelMapStep_unprocessed (a : FilterArgs) (m : BaseModel) :
    ((modelMapStep a m).2).unprocessed = 0 := by
  unfold modelMapStep
  by_cases h : ((modelSortedImages a m).length == 0) = true <;>
    simp [h, tallyNo, Tally.zero]

theorem collectionMapStep_unprocessed (a : FilterArgs) (c : BaseCollection) :
    ((collectionMapStep a c).2).unprocessed = 0 := by
  unfold collectionMapStep
  by_cases h : ((collectionFilteredImages a c).length == 0) = true <;>
    simp [h, tallyNo, Tally.zero]

theorem postMapStep_unprocessed (a : FilterArgs) (p : BasePost) :
    ((postMapStep a p).2).unprocessed = 0 := by
  unfold postMapStep
  rcases hi : p.images with _ | imgs
  · rfl
  · by_cases h : ((imgs.filter (postImageStep a)).length == 0) = true <;>
      simp [h, tallyNo, Tally.zero]

theorem bountyMapStep_unprocessed (a : FilterArgs) (b : BaseBounty)
    (r : Option BaseBounty × Tally) (hr : bountyMapStep a b = .ok r) :
    ((r.2)).unprocessed = 0 := by
  unfold bountyMapStep at hr
  rcases hi : b.images with _ | imgs <;> rw [hi] at hr
  · simp at hr
  · by_cases h : ((imgs.filter (subImageStep a)).length == 0) = true <;>
      simp [h] at hr <;> rw [← hr] <;> rfl

theorem filterPhase_unprocessed (step : α → Bool × Tally) (l : List α)
    (h : ∀ x, ((step x).2).unprocessed = 0) :
    ((filterPhase step l).2).unprocessed = 0 := by
  rw [filterPhase_snd_proj Tally.unprocessed Tally.unprocessed_add rfl]
  exact List.sum_eq_zero (by simp [h])

theorem mapPhase_unprocessed (step : α → Option β × Tally) (l : List α)
    (h : ∀ x, ((step x).2).unprocessed = 0) :
    ((mapPhase step l).2).unprocessed = 0 := by
  rw [mapPhase_snd_proj Tally.unprocessed Tally.unprocessed_add rfl]
  exact List.sum_eq_zero (by simp [h])

theorem mapPhaseE_unprocessed (step : α → Except String (Option β × Tally))
    (l : List α) (r : List β × Tally) (hr : mapPhaseE step l = .ok r)
    (h : ∀ x r', step x = .ok r' → ((r'.2)).unprocessed = 0) :
    ((r.2)).unprocessed = 0 := by
  induction l generalizing r with
  | nil =>
    simp only [mapPhaseE] at hr
    cases hr
    rfl
  | cons a as ih =>
    simp only [mapPhaseE] at hr
    cases ha : step a with
    | error e => rw [ha] at hr; simp at hr
    | ok ra =>
      rw [ha] at hr
      cases hrest : mapPhaseE step as with
      | error e => rw [hrest] at hr; simp at hr
      | ok rrest =>
        rw [hrest] at hr
        simp at hr
        rw [← hr]
        show (ra.2 + rrest.2).unprocessed = 0
        rw [Tally.unprocessed_add, h a ra ha, ih rrest hrest]

theorem modelsBranch_unprocessed (a : FilterArgs) (l : List BaseModel) :
    ((modelsBranch a l).2).unprocessed = 0 := by
  unfold modelsBranch
  rw [Tally.unprocessed_add,
    filterPhase_unprocessed _ _ (modelFilterStep_unprocessed a),
    mapPhase_unprocessed _ _ (modelMapStep_unprocessed a)]

theorem imagesBranch_unprocessed (a : FilterArgs) (l : List BaseImage) :
    ((imagesBranch a l).2).unprocessed = 0 :=
  filterPhase_unprocessed _ _ (imageStep_unprocessed a)

theorem articlesBranch_unprocessed (a : FilterArgs) (l : List BaseArticle) :
    ((articlesBranch a l).2).unprocessed = 0 :=
  filterPhase_unprocessed _ _ (articleStep_unprocessed a)

theorem usersBranch_unprocessed (a : FilterArgs) (l : List BaseUser) :
    ((usersBranch a l).2).unprocessed = 0 :=
  filterPhase_unprocessed _ _ (userStep_unprocessed a)

theorem collectionsBranch_unprocessed (a : FilterArgs) (l : List BaseCollection) :
    ((collectionsBranch a l).2).unprocessed = 0 := by
  unfold collectionsBranch
  rw [Tally.unprocessed_add,
    filterPhase_unprocessed _ _ (collectionFilterStep_unprocessed a),
    mapPhase_unprocessed _ _ (collectionMapStep_unprocessed a)]

theorem postsBranch_unprocessed (a : FilterArgs) (l : List BasePost) :
    ((postsBranch a l).2).unprocessed = 0 := by
  unfold postsBranch
  rw [Tally.unprocessed_add,
    filterPhase_unprocessed _ _ (postFilterStep_unprocessed a),
    mapPhase_unprocessed _ _ (postMapStep_unprocessed a)]

theorem tagsBranch_unprocessed (a : FilterArgs) (l : List BaseTag) :
    ((tagsBranch a l).2).unprocessed = 0 :=
  filterPhase_unprocessed _ _ (tagStep_unprocessed a)

theorem bountiesBranch_unprocessed (a : FilterArgs) (l : List BaseBounty)
    (r : List BaseBounty × Tally) (hr : bountiesBranch a l = .ok r) :
    ((r.2)).unprocessed = 0 := by
  unfold bountiesBranch at hr
  cases hm : mapPhaseE (bountyMapStep a) (filterPhase (bountyFilterStep a) l).1 with
  | error e => rw [hm] at hr; simp at hr
  | ok rm =>
    rw [hm] at hr
    simp at hr
    rw [← hr]
    show ((filterPhase (bountyFilterStep a) l).2 + rm.2).unprocessed = 0
    rw [Tally.unprocessed_add,
      filterPhase_unprocessed _ _ (bountyFilterStep_unprocessed a),
      mapPhaseE_unprocessed _ _ rm hm (bountyMapStep_unprocessed a)]

theorem filterPreferences_unprocessed (a : FilterArgs) (d : Option TypedData)
    (out : ItemsOut) (t : Tally) (h : filterPreferences a d = .ok (out, t)) :
    t.unprocessed = 0 := by
  unfold filterPreferences at h
  by_cases hsc : (d.isNone || a.disabled || a.hiddenPreferences.hiddenLoading) = true
  · rw [if_pos hsc] at h
    cases h
    rfl
  · rw [if_neg hsc] at h
    cases d with
    | none => simp at hsc
    | some td =>
      cases td with
      | models l => cases h; exact modelsBranch_unprocessed a l
      | images l => cases h; exact imagesBranch_unprocessed a l
      | articles l => cases h; exact articlesBranch_unprocessed a l
      | users l => cases h; exact usersBranch_unprocessed a l
      | collections l => cases h; exact collectionsBranch_unprocessed a l
      | bounties l =>
        have h2 : (match bountiesBranch a l with
            | Except.ok r => Except.ok (ItemsOut.bounties r.1, r.2)
            | Except.error e => Except.error e) = Except.ok (out, t) := h
        cases hb : bountiesBranch a l with
        | error e => rw [hb] at h2; simp at h2
        | ok r =>
          rw [hb] at h2
          simp at h2
          rw [← h2.2]
          exact bountiesBranch_unprocessed a l r hb
      | posts l => cases h; exact postsBranch_unprocessed a l
      | tags l => cases h; exact tagsBranch_unprocessed a l
      | unknown s => simp at h

/-! ## Rule-level lemmas: the owner/moderator override, the browsing-level
rule, and membership in phase outputs -/

theorem mem_filterPhase_of (step : α → Bool × Tally) (l : List α) (a : α)
    (ha : a ∈ l) (hk : (step a).1 = true) : a ∈ (filterPhase step l).1 :=
  (mem_filterPhase step l a).mpr ⟨ha, hk⟩

theorem mem_mapPhase_of (step : α → Option β × Tally) (l : List α) (a : α) (b : β)
    (ha : a ∈ l) (hb : (step a).1 = some b) : b ∈ (mapPhase step l).1 :=
  (mem_mapPhase step l b).mpr ⟨a, ha, hb⟩

theorem mapPhaseE_mem (step : α → Except String (Option β × Tally))
    (l : List α) (r : List β × Tally) (hr : mapPhaseE step l = .ok r)
    (a : α) (b : β) (d : Tally) (ha : a ∈ l) (hb : step a = .ok (some b, d)) :
    b ∈ r.1 := by
  induction l generalizing r with
  | nil => cases ha
  | cons x xs ih =>
    simp only [mapPhaseE] at hr
    cases hx : step x with
    | error e => rw [hx] at hr; simp at hr
    | ok rx =>
      rw [hx] at hr
      cases hrest : mapPhaseE step xs with
      | error e => rw [hrest] at hr; simp at hr
      | ok rrest =>
        rw [hrest] at hr
        simp at hr
        rcases List.mem_cons.mp ha with hax | hax
        · subst hax
          rw [hx] at hb
          cases hb
          rw [← hr]
          simp
        · have := ih rrest hrest hax
          rw [← hr]
          cases hrx : rx.1 <;> simp [hrx, this]

theorem modelFilterStep_rule1 (a : FilterArgs) (m : BaseModel)
    (h : ((ownerEq m.user.id a.currentUser || a.isModerator) && m.nsfwLevel == 0) = true) :
    modelFilterStep a m = (true, Tally.zero) := by
  unfold modelFilterStep; simp [h]

theorem imageStep_rule1 (a : FilterArgs) (i : BaseImage)
    (h : ((jsTruthy (jsOr i.userId (i.user.map (·.id))) &&
      ownerEqOpt (jsOr i.userId (i.user.map (·.id))) a.currentUser || a.isModerator) &&
      i.nsfwLevel == 0) = true) :
    imageStep a i = (true, Tally.zero) := by
  unfold imageStep; simp [h]

theorem articleStep_rule1 (a : FilterArgs) (ar : BaseArticle)
    (h : ((ownerEq ar.user.id a.currentUser || a.isModerator) && ar.nsfwLevel == 0) = true) :
    articleStep a ar = (true, Tally.zero) := by
  unfold articleStep; simp [h]

theorem collectionFilterStep_rule1 (a : FilterArgs) (c : BaseCollection)
    (h : ((jsTruthy (jsOr c.userId (c.user.map (·.id))) &&
      ownerEqOpt (jsOr c.userId (c.user.map (·.id))) a.currentUser || a.isModerator) &&
      c.nsfwLevel == 0) = true) :
    collectionFilterStep a c = (true, Tally.zero) := by
  unfold collectionFilterStep; simp [h]

theorem bountyFilterStep_rule1 (a : FilterArgs) (b : BaseBounty)
    (h : ((ownerEq b.user.id a.currentUser || a.isModerator) && b.nsfwLevel == 0) = true) :
    bountyFilterStep a b = (true, Tally.zero) := by
  unfold bountyFilterStep; simp [h]

theorem postFilterStep_rule1 (a : FilterArgs) (p : BasePost)
    (h : ((jsTruthy (jsOr p.userId (p.user.map (·.id))) &&
      ownerEqOpt (jsOr p.userId (p.user.map (·.id))) a.currentUser || a.isModerator) &&
      p.nsfwLevel == 0) = true) :
    postFilterStep a p = (true, Tally.zero) := by
  unfold postFilterStep; simp [h]

theorem modelFilterStep_browsing (a : FilterArgs) (m : BaseModel)
    (h1 : ((ownerEq m.user.id a.currentUser || a.isModerator) && m.nsfwLevel == 0) = false)
    (h2 : Flags.intersects m.nsfwLevel a.browsingLevel = false) :
    modelFilterStep a m = (false, tallyB) := by
  unfold modelFilterStep; simp [h1, h2]

theorem imageStep_browsing (a : FilterArgs) (i : BaseImage)
    (hA : a.allowLowerLevels = false)
    (h1 : ((jsTruthy (jsOr i.userId (i.user.map (·.id))) &&
      ownerEqOpt (jsOr i.userId (i.user.map (·.id))) a.currentUser || a.isModerator) &&
      i.nsfwLevel == 0) = false)
    (h2 : Flags.intersects i.nsfwLevel a.browsingLevel = false) :
    imageStep a i = (false, tallyB) := by
  unfold imageStep; simp [hA, h1, h2]

theorem imageStep_browsing_allow (a : FilterArgs) (i : BaseImage)
    (hA : a.allowLowerLevels = true)
    (h1 : ((jsTruthy (jsOr i.userId (i.user.map (·.id))) &&
      ownerEqOpt (jsOr i.userId (i.user.map (·.id))) a.currentUser || a.isModerator) &&
      i.nsfwLevel == 0) = false)
    (h2 : Flags.maxValue a.browsingLevel < i.nsfwLevel) :
    imageStep a i = (false, tallyB) := by
  unfold imageStep; simp [hA, h1, h2]

theorem articleStep_browsing (a : FilterArgs) (ar : BaseArticle)
    (h1 : ((ownerEq ar.user.id a.currentUser || a.isModerator) && ar.nsfwLevel == 0) = false)
    (h2 : Flags.intersects ar.nsfwLevel a.browsingLevel = false) :
    articleStep a ar = (false, tallyB) := by
  unfold articleStep; simp [h1, h2]

theorem collectionFilterStep_browsing (a : FilterArgs) (c : BaseCollection)
    (h1 : ((jsTruthy (jsOr c.userId (c.user.map (·.id))) &&
      ownerEqOpt (jsOr c.userId (c.user.map (·.id))) a.currentUser || a.isModerator) &&
      c.nsfwLevel == 0) = false)
    (h2 : Flags.intersects c.nsfwLevel a.browsingLevel = false) :
    collectionFilterStep a c = (false, tallyB) := by
  unfold collectionFilterStep; simp [h1, h2]

theorem bountyFilterStep_browsing (a : FilterArgs) (b : BaseBounty)
    (h1 : ((ownerEq b.user.id a.currentUser || a.isModerator) && b.nsfwLevel == 0) = false)
    (h2 : Flags.intersects b.nsfwLevel a.browsingLevel = false) :
    bountyFilterStep a b = (false, tallyB) := by
  unfold bountyFilterStep; simp [h1, h2]

theorem postFilterStep_browsing (a : FilterArgs) (p : BasePost)
    (h1 : ((jsTruthy (jsOr p.userId (p.user.map (·.id))) &&
      ownerEqOpt (jsOr p.userId (p.user.map (·.id))) a.currentUser || a.isModerator) &&
      p.nsfwLevel == 0) = false)
    (h2 : Flags.intersects p.nsfwLevel a.browsingLevel = false) :
    postFilterStep a p = (false, tallyB) := by
  unfold postFilterStep; simp [h1, h2]

/-! ## Keep-side map lemmas and `allowLowerLevels` (in)dependence -/

theorem modelMapStep_showImageless (a : FilterArgs) (m : BaseModel)
    (h : a.showImageless = true) :
    (modelMapStep a m).1 = some { m with images := some (modelSortedImages a m) } := by
  unfold modelMapStep; simp [h]

theorem collectionMapStep_showImageless (a : FilterArgs) (c : BaseCollection)
    (h : a.showImageless = true) :
    (collectionMapStep a c).1 =
      some { c with image := none, images := some (collectionFilteredImages a c) } := by
  unfold collectionMapStep; simp [h]

theorem postMapStep_showImageless (a : FilterArgs) (p : BasePost)
    (h : a.showImageless = true) :
    ∃ v, (postMapStep a p).1 = some { p with images := v } := by
  unfold postMapStep
  rcases hi : p.images with _ | imgs
  · refine ⟨none, ?_⟩
    cases p
    simp at hi
    simp [hi]
  · exact ⟨some (imgs.filter (postImageStep a)), by simp [h]⟩

theorem bountyMapStep_ok_nonempty (a : FilterArgs) (b : BaseBounty) (imgs : List SubImg)
    (hi : b.images = some imgs) (hne : imgs.filter (subImageStep a) ≠ []) :
    bountyMapStep a b =
      .ok (some { b with images := some (imgs.filter (subImageStep a)) }, Tally.zero) := by
  unfold bountyMapStep
  rw [hi]
  have hlen : (imgs.filter (subImageStep a)).length ≠ 0 := by
    simpa [List.length_eq_zero] using hne
  simp [hlen]

theorem imageStep_keep_intersects (a : FilterArgs) (i : BaseImage)
    (hA : a.allowLowerLevels = false)
    (h1 : ((jsTruthy (jsOr i.userId (i.user.map (·.id))) &&
      ownerEqOpt (jsOr i.userId (i.user.map (·.id))) a.currentUser || a.isModerator) &&
      i.nsfwLevel == 0) = false)
    (hk : (imageStep a i).1 = true) :
    Flags.intersects i.nsfwLevel a.browsingLevel = true := by
  by_cases h2 : Flags.intersects i.nsfwLevel a.browsingLevel = true
  · exact h2
  · rw [imageStep_browsing a i hA h1 (by simpa using h2)] at hk
    cases hk

theorem imageStep_keep_le_max (a : FilterArgs) (i : BaseImage)
    (hA : a.allowLowerLevels = true)
    (h1 : ((jsTruthy (jsOr i.userId (i.user.map (·.id))) &&
      ownerEqOpt (jsOr i.userId (i.user.map (·.id))) a.currentUser || a.isModerator) &&
      i.nsfwLevel == 0) = false)
    (hk : (imageStep a i).1 = true) :
    i.nsfwLevel ≤ Flags.maxValue a.browsingLevel := by
  by_cases h2 : Flags.maxValue a.browsingLevel < i.nsfwLevel
  · rw [imageStep_browsing_allow a i hA h1 h2] at hk
    cases hk
  · exact Nat.le_of_not_lt h2

theorem imageStep_tallyB_iff_allow (a : FilterArgs) (i : BaseImage)
    (hA : a.allowLowerLevels = true)
    (h1 : ((jsTruthy (jsOr i.userId (i.user.map (·.id))) &&
      ownerEqOpt (jsOr i.userId (i.user.map (·.id))) a.currentUser || a.isModerator) &&
      i.nsfwLevel == 0) = false) :
    imageStep a i = (false, tallyB) ↔ Flags.maxValue a.browsingLevel < i.nsfwLevel := by
  constructor
  · intro h
    by_contra hlt
    unfold imageStep at h
    by_cases h3 : hiddenGetOpt a.hiddenPreferences.hiddenUsers
        (jsOr i.userId (i.user.map (·.id))) = true <;>
      by_cases h4 : (a.hiddenPreferences.hiddenImages.get i.id && !a.showHidden) = true <;>
      by_cases h5 : ((i.tagIds.getD []).any a.hiddenPreferences.hiddenTags.get) = true <;>
      simp [hA, h1, hlt, h3, h4, h5, tallyU, tallyI, tallyT, tallyB, Tally.zero] at h
  · exact imageStep_browsing_allow a i hA h1

theorem imageStep_tallyB_iff_noallow (a : FilterArgs) (i : BaseImage)
    (hA : a.allowLowerLevels = false)
    (h1 : ((jsTruthy (jsOr i.userId (i.user.map (·.id))) &&
      ownerEqOpt (jsOr i.userId (i.user.map (·.id))) a.currentUser || a.isModerator) &&
      i.nsfwLevel == 0) = false) :
    imageStep a i = (false, tallyB) ↔
      Flags.intersects i.nsfwLevel a.browsingLevel = false := by
  constructor
  · intro h
    by_contra hint
    have hint2 : Flags.intersects i.nsfwLevel a.browsingLevel = true := by
      simpa using hint
    unfold imageStep at h
    by_cases h3 : hiddenGetOpt a.hiddenPreferences.hiddenUsers
        (jsOr i.userId (i.user.map (·.id))) = true <;>
      by_cases h4 : (a.hiddenPreferences.hiddenImages.get i.id && !a.showHidden) = true <;>
      by_cases h5 : ((i.tagIds.getD []).any a.hiddenPreferences.hiddenTags.get) = true <;>
      simp [hA, h1, hint2, h3, h4, h5, tallyU, tallyI, tallyT, tallyB, Tally.zero] at h
  · exact imageStep_browsing a i hA h1

theorem modelsBranch_allow (a : FilterArgs) (b : Bool) (l : List BaseModel) :
    modelsBranch { a with allowLowerLevels := b } l = modelsBranch a l := rfl

theorem articlesBranch_allow (a : FilterArgs) (b : Bool) (l : List BaseArticle) :
    articlesBranch { a with allowLowerLevels := b } l = articlesBranch a l := rfl

theorem usersBranch_allow (a : FilterArgs) (b : Bool) (l : List BaseUser) :
    usersBranch { a with allowLowerLevels := b } l = usersBranch a l := rfl

theorem collectionsBranch_allow (a : FilterArgs) (b : Bool) (l : List BaseCollection) :
    collectionsBranch { a with allowLowerLevels := b } l = collectionsBranch a l := rfl

theorem bountiesBranch_allow (a : FilterArgs) (b : Bool) (l : List BaseBounty) :
    bountiesBranch { a with allowLowerLevels := b } l = bountiesBranch a l := rfl

theorem postsBranch_allow (a : FilterArgs) (b : Bool) (l : List BasePost) :
    postsBranch { a with allowLowerLevels := b } l = postsBranch a l := rfl

theorem tagsBranch_allow (a : FilterArgs) (b : Bool) (l : List BaseTag) :
    tagsBranch { a with allowLowerLevels := b } l = tagsBranch a l := rfl

/-! ## Claim C1 -/

/-- C1 (amended): for the owner-guarded content types (models, images,
articles, collections, bounties, posts), an item whose owner/moderator
override fires — the viewer is a moderator, or the item's resolved owner id
equals the viewer's id (with the truthiness guard the source applies for
images/collections/posts) — and whose `nsfwLevel` is exactly `0` passes the
per-item filter unconditionally and appears in the output, provided the
imageless-parent rule does not drop it (`showImageless` for
models/collections/posts; a surviving image for bounties).  The tags and
users branches have no such override (see the counterexample), and the
parent-drop proviso is forced because hidden-set/browsing state can empty a
container's images. -/
theorem c1_owner_or_moderator_level0_visible :
    (∀ (a : FilterArgs) (l : List BaseModel) (m : BaseModel), m ∈ l →
      ((ownerEq m.user.id a.currentUser || a.isModerator) && m.nsfwLevel == 0) = true →
      a.showImageless = true →
      { m with images := some (modelSortedImages a m) } ∈ (modelsBranch a l).1) ∧
    (∀ (a : FilterArgs) (l : List BaseImage) (i : BaseImage), i ∈ l →
      ((jsTruthy (jsOr i.userId (i.user.map (·.id))) &&
        ownerEqOpt (jsOr i.userId (i.user.map (·.id))) a.currentUser || a.isModerator) &&
        i.nsfwLevel == 0) = true →
      i ∈ (imagesBranch a l).1) ∧
    (∀ (a : FilterArgs) (l : List BaseArticle) (ar : BaseArticle), ar ∈ l →
      ((ownerEq ar.user.id a.currentUser || a.isModerator) && ar.nsfwLevel == 0) = true →
      ar ∈ (articlesBranch a l).1) ∧
    (∀ (a : FilterArgs) (l : List BaseCollection) (c : BaseCollection), c ∈ l →
      ((jsTruthy (jsOr c.userId (c.user.map (·.id))) &&
        ownerEqOpt (jsOr c.userId (c.user.map (·.id))) a.currentUser || a.isModerator) &&
        c.nsfwLevel == 0) = true →
      a.showImageless = true →
      { c with image := none, images := some (collectionFilteredImages a c) } ∈
        (collectionsBranch a l).1) ∧
    (∀ (a : FilterArgs) (l : List BaseBounty) (b : BaseBounty) (imgs : List SubImg)
        (r : List BaseBounty × Tally), b ∈ l →
      ((ownerEq b.user.id a.currentUser || a.isModerator) && b.nsfwLevel == 0) = true →
      b.images = some imgs → imgs.filter (subImageStep a) ≠ [] →
      bountiesBranch a l = .ok r →
      { b with images := some (imgs.filter (subImageStep a)) } ∈ r.1) ∧
    (∀ (a : FilterArgs) (l : List BasePost) (p : BasePost), p ∈ l →
      ((jsTruthy (jsOr p.userId (p.user.map (·.id))) &&
        ownerEqOpt (jsOr p.userId (p.user.map (·.id))) a.currentUser || a.isModerator) &&
        p.nsfwLevel == 0) = true →
      a.showImageless = true →
      ∃ v, ({ p with images := v } : BasePost) ∈ (postsBranch a l).1) := by
  refine ⟨?_, ?_, ?_, ?_, ?_, ?_⟩
  · intro a l m hm h1 hsi
    have hk : (modelFilterStep a m).1 = true := by rw [modelFilterStep_rule1 a m h1]
    exact mem_mapPhase_of _ _ m _ (mem_filterPhase_of _ l m hm hk)
      (modelMapStep_showImageless a m hsi)
  · intro a l i hi h1
    have hk : (imageStep a i).1 = true := by rw [imageStep_rule1 a i h1]
    exact mem_filterPhase_of _ l i hi hk
  · intro a l ar har h1
    have hk : (articleStep a ar).1 = true := by rw [articleStep_rule1 a ar h1]
    exact mem_filterPhase_of _ l ar har hk
  · intro a l c hc h1 hsi
    have hk : (collectionFilterStep a c).1 = true := by
      rw [collectionFilterStep_rule1 a c h1]
    exact mem_mapPhase_of _ _ c _ (mem_filterPhase_of _ l c hc hk)
      (collectionMapStep_showImageless a c hsi)
  · intro a l b imgs r hb h1 hIm hne hr
    have hk : (bountyFilterStep a b).1 = true := by rw [bountyFilterStep_rule1 a b h1]
    have hmemb := mem_filterPhase_of _ l b hb hk
    have hok := bountyMapStep_ok_nonempty a b imgs hIm hne
    unfold bountiesBranch at hr
    cases hmE : mapPhaseE (bountyMapStep a) (filterPhase (bountyFilterStep a) l).1 with
    | error e => rw [hmE] at hr; simp at hr
    | ok rm =>
      rw [hmE] at hr
      simp at hr
      have := mapPhaseE_mem _ _ rm hmE b _ Tally.zero hmemb hok
      rw [← hr]
      simpa using this
  · intro a l p hp h1 hsi
    have hk : (postFilterStep a p).1 = true := by rw [postFilterStep_rule1 a p h1]
    obtain ⟨v, hv⟩ := postMapStep_showImageless a p hsi
    exact ⟨v, mem_mapPhase_of _ _ p _ (mem_filterPhase_of _ l p hp hk) hv⟩

/-- C1 counterexample: a moderator viewer and a `tags` item with `nsfwLevel`
exactly `0` that is in the hidden-tags set — the tag is excluded and tallied
under `tags`, although the claim (quantified over every content type)
demands it always appear: the tags branch has no owner/moderator
override. -/
theorem c1_counterexample :
    FilterArgs.isModerator
      { hiddenPreferences := { hiddenTags := [(5, true)] },
        browsingLevel := 1,
        currentUser := some { id := 1, isModerator := true } } = true ∧
    filterPreferences
      { hiddenPreferences := { hiddenTags := [(5, true)] },
        browsingLevel := 1,
        currentUser := some { id := 1, isModerator := true } }
      (some (.tags [{ id := 5, nsfwLevel := some 0 }])) =
      .ok (.tags [], { tags := 1 }) :=
  ⟨rfl, rfl⟩

/-- Witness for C1: a viewer who owns an image with `nsfwLevel = 0` sees it
even though its id is in the hidden-images set and its level does not
intersect the browsing mask. -/
theorem c1_witness :
    ({ id := 7, userId := some 3, nsfwLevel := 0 } : BaseImage) ∈
      (imagesBranch
        { hiddenPreferences := { hiddenImages := [(7, true)] },
          browsingLevel := 1,
          currentUser := some { id := 3, isModerator := false } }
        [{ id := 7, userId := some 3, nsfwLevel := 0 }]).1 :=
  c1_owner_or_moderator_level0_visible.2.1
    { hiddenPreferences := { hiddenImages := [(7, true)] },
      browsingLevel := 1,
      currentUser := some { id := 3, isModerator := false } }
    [{ id := 7, userId := some 3, nsfwLevel := 0 }]
    { id := 7, userId := some 3, nsfwLevel := 0 }
    (by decide) (by decide)

/-! ## Claim C3 -/

/-- C3 (amended): when every nested image of a parent is filtered out,
Models, Collections and Posts behave alike — the parent is dropped when
`showImageless` is false and kept with an empty images array when it is true
(a Post with no `images` field at all is kept unchanged) — while Bounties
drop the imageless parent regardless of `showImageless`.  (The claim's
"Models/Posts retain the parent regardless" is false on the code.) -/
theorem c3_imageless_parent_handling :
    (∀ (a : FilterArgs) (m : BaseModel), modelFilteredImages a m = [] →
      modelMapStep a m =
        (if a.showImageless then some { m with images := some [] } else none, tallyNo)) ∧
    (∀ (a : FilterArgs) (c : BaseCollection), collectionFilteredImages a c = [] →
      collectionMapStep a c =
        (if a.showImageless then some { c with image := none, images := some [] } else none,
         tallyNo)) ∧
    (∀ (a : FilterArgs) (p : BasePost) (imgs : List PostImg), p.images = some imgs →
      imgs.filter (postImageStep a) = [] →
      postMapStep a p =
        (if a.showImageless then some { p with images := some [] } else none, tallyNo)) ∧
    (∀ (a : FilterArgs) (p : BasePost), p.images = none →
      postMapStep a p = (some p, Tally.zero)) ∧
    (∀ (a : FilterArgs) (b : BaseBounty) (imgs : List SubImg), b.images = some imgs →
      imgs.filter (subImageStep a) = [] →
      bountyMapStep a b = .ok (none, tallyNo)) :=
  ⟨modelMapStep_imageless, collectionMapStep_imageless, postMapStep_imageless,
   postMapStep_noImages, bountyMapStep_imageless⟩

/-- C3 counterexample: a model whose only image is filtered by browsing
level, with `showImageless = false`, is dropped from the output (the claim
says Models are "still returned" in this situation). -/
theorem c3_counterexample :
    filterPreferences
      { hiddenPreferences := {}, browsingLevel := 1, showImageless := false }
      (some (.models [{ id := 1, user := { id := 2 }, nsfwLevel := 1, images := some [{ id := 9, nsfwLevel := 4 }] }])) =
      .ok (.models [], { noImages := 1 }) := rfl

/-- Witness for C3: the model conjunct evaluated at a concrete model whose
only image is filtered out, with `showImageless = false`: the map callback
drops the parent and tallies `noImages`. -/
theorem c3_witness :
    modelMapStep { hiddenPreferences := {}, browsingLevel := 1, showImageless := false }
      { id := 1, user := { id := 2 }, nsfwLevel := 1, images := some [{ id := 9, nsfwLevel := 4 }] } =
      (if ({ hiddenPreferences := {}, browsingLevel := 1, showImageless := false } : FilterArgs).showImageless
       then some { id := 1, user := { id := 2 }, nsfwLevel := 1, images := some [] }
       else none, tallyNo) :=
  c3_imageless_parent_handling.1
    { hiddenPreferences := {}, browsingLevel := 1, showImageless := false }
    { id := 1, user := { id := 2 }, nsfwLevel := 1, images := some [{ id := 9, nsfwLevel := 4 }] }
    (by decide)

/-! ## Keep-implies-intersection lemmas for the remaining branches -/

theorem articleStep_keep_intersects (a : FilterArgs) (ar : BaseArticle)
    (h1 : ((ownerEq ar.user.id a.currentUser || a.isModerator) && ar.nsfwLevel == 0) = false)
    (hk : (articleStep a ar).1 = true) :
    Flags.intersects ar.nsfwLevel a.browsingLevel = true := by
  by_cases h2 : Flags.intersects ar.nsfwLevel a.browsingLevel = true
  · exact h2
  · rw [articleStep_browsing a ar h1 (by simpa using h2)] at hk
    cases hk

theorem collectionFilterStep_keep_intersects (a : FilterArgs) (c : BaseCollection)
    (h1 : ((jsTruthy (jsOr c.userId (c.user.map (·.id))) &&
      ownerEqOpt (jsOr c.userId (c.user.map (·.id))) a.currentUser || a.isModerator) &&
      c.nsfwLevel == 0) = false)
    (hk : (collectionFilterStep a c).1 = true) :
    Flags.intersects c.nsfwLevel a.browsingLevel = true := by
  by_cases h2 : Flags.intersects c.nsfwLevel a.browsingLevel = true
  · exact h2
  · rw [collectionFilterStep_browsing a c h1 (by simpa using h2)] at hk
    cases hk

theorem bountyFilterStep_keep_intersects (a : FilterArgs) (b : BaseBounty)
    (h1 : ((ownerEq b.user.id a.currentUser || a.isModerator) && b.nsfwLevel == 0) = false)
    (hk : (bountyFilterStep a b).1 = true) :
    Flags.intersects b.nsfwLevel a.browsingLevel = true := by
  by_cases h2 : Flags.intersects b.nsfwLevel a.browsingLevel = true
  · exact h2
  · rw [bountyFilterStep_browsing a b h1 (by simpa using h2)] at hk
    cases hk

theorem postFilterStep_keep_intersects (a : FilterArgs) (p : BasePost)
    (h1 : ((jsTruthy (jsOr p.userId (p.user.map (·.id))) &&
      ownerEqOpt (jsOr p.userId (p.user.map (·.id))) a.currentUser || a.isModerator) &&
      p.nsfwLevel == 0) = false)
    (hk : (postFilterStep a p).1 = true) :
    Flags.intersects p.nsfwLevel a.browsingLevel = true := by
  by_cases h2 : Flags.intersects p.nsfwLevel a.browsingLevel = true
  · exact h2
  · rw [postFilterStep_browsing a p h1 (by simpa using h2)] at hk
    cases hk

theorem tagStep_tallyB_iff (a : FilterArgs) (t : BaseTag) :
    tagStep a t = (false, tallyB) ↔
      (a.hiddenPreferences.hiddenTags.get t.id = false ∧
       jsTruthy t.nsfwLevel = true ∧ NsfwLevel.PG13 < t.nsfwLevel.getD 0 ∧
       t.id ∉ moderatedTagIds a) := by
  unfold tagStep
  by_cases h1 : a.hiddenPreferences.hiddenTags.get t.id = true
  · simp [h1, tallyT, tallyB]
  · by_cases h2 : (jsTruthy t.nsfwLevel = true ∧ NsfwLevel.PG13 < t.nsfwLevel.getD 0) ∧
        t.id ∉ moderatedTagIds a
    · simp only [h1, Bool.not_eq_true] at h1 ⊢
      simp [h1, h2, h2.1.1, h2.1.2, h2.2]
    · simp only [Bool.not_eq_true] at h1
      simp [h1, h2, tallyB, Tally.zero]
      intro hA hB
      by_contra hC
      exact h2 ⟨⟨hA, hB⟩, hC⟩

/-! ## Claim C2 -/

theorem imageStep_delta_browsingLevel (a : FilterArgs) (i : BaseImage)
    (hA : a.allowLowerLevels = false) :
    ((imageStep a i).2).browsingLevel =
      if (!((jsTruthy (jsOr i.userId (i.user.map (·.id))) &&
          ownerEqOpt (jsOr i.userId (i.user.map (·.id))) a.currentUser || a.isModerator) &&
          i.nsfwLevel == 0) &&
         !Flags.intersects i.nsfwLevel a.browsingLevel) = true
      then 1 else 0 := by
  by_cases h1 : ((jsTruthy (jsOr i.userId (i.user.map (·.id))) &&
      ownerEqOpt (jsOr i.userId (i.user.map (·.id))) a.currentUser || a.isModerator) &&
      i.nsfwLevel == 0) = true
  · rw [imageStep_rule1 a i h1]
    simp [h1, Tally.zero]
  · rw [Bool.not_eq_true] at h1
    by_cases h2 : Flags.intersects i.nsfwLevel a.browsingLevel = true
    · have hne : imageStep a i ≠ (false, tallyB) := by
        intro hc
        rw [imageStep_tallyB_iff_noallow a i hA h1] at hc
        rw [h2] at hc
        cases hc
      rcases imageStep_cases a i with h | h | h | h | h <;>
        first
          | (exact absurd h hne)
          | (rw [h]; simp [h1, h2, Tally.zero, tallyU, tallyI, tallyT])
    · rw [Bool.not_eq_true] at h2
      rw [imageStep_browsing a i hA h1 h2]
      simp [h1, h2, tallyB]

theorem imagesBranch_browsingLevel_count (a : FilterArgs) (l : List BaseImage)
    (hA : a.allowLowerLevels = false) :
    ((imagesBranch a l).2).browsingLevel =
      l.countP (fun i =>
        !((jsTruthy (jsOr i.userId (i.user.map (·.id))) &&
          ownerEqOpt (jsOr i.userId (i.user.map (·.id))) a.currentUser || a.isModerator) &&
          i.nsfwLevel == 0) &&
        !Flags.intersects i.nsfwLevel a.browsingLevel) := by
  show ((filterPhase (imageStep a) l).2).browsingLevel = _
  rw [filterPhase_snd_proj Tally.browsingLevel Tally.browsingLevel_add rfl]
  rw [← sum_map_ite_eq_countP]
  exact congrArg List.sum
    (List.map_congr_left fun i _ => imageStep_delta_browsingLevel a i hA)

/-- C2 (amended): every exclusion increments exactly one tally counter
(first matching rule short-circuits): each per-item filter callback that
rejects an item returns a delta of total 1, and each map callback that drops
an imageless parent returns the single `noImages` increment.  In every
branch that has the bit-intersection browsing rule — models, articles,
collections, bounties, posts, and images with `allowLowerLevels` false —
an item NOT force-included by the owner/moderator-level-0 override whose
`nsfwLevel` does not bit-intersect `browsingLevel` is excluded with exactly
`hidden.browsingLevel++`; over the whole images branch `hidden.browsingLevel`
equals the count of such items.  (Tags use the PG13-threshold rule and users
have no browsing rule at all, so those branches are outside part (b); and as
originally stated the claim is false because the owner/moderator override
precedes the browsing-level rule, see the counterexample.) -/
theorem c2_exclusions_single_counter :
    (∀ (a : FilterArgs) (m : BaseModel), (modelFilterStep a m).1 = false →
      ((modelFilterStep a m).2).total = 1) ∧
    (∀ (a : FilterArgs) (i : BaseImage), (imageStep a i).1 = false →
      ((imageStep a i).2).total = 1) ∧
    (∀ (a : FilterArgs) (ar : BaseArticle), (articleStep a ar).1 = false →
      ((articleStep a ar).2).total = 1) ∧
    (∀ (a : FilterArgs) (u : BaseUser), (userStep a u).1 = false →
      ((userStep a u).2).total = 1) ∧
    (∀ (a : FilterArgs) (c : BaseCollection), (collectionFilterStep a c).1 = false →
      ((collectionFilterStep a c).2).total = 1) ∧
    (∀ (a : FilterArgs) (b : BaseBounty), (bountyFilterStep a b).1 = false →
      ((bountyFilterStep a b).2).total = 1) ∧
    (∀ (a : FilterArgs) (p : BasePost), (postFilterStep a p).1 = false →
      ((postFilterStep a p).2).total = 1) ∧
    (∀ (a : FilterArgs) (t : BaseTag), (tagStep a t).1 = false →
      ((tagStep a t).2).total = 1) ∧
    (∀ (a : FilterArgs) (m : BaseModel), (modelMapStep a m).1 = none →
      ((modelMapStep a m).2).total = 1) ∧
    (∀ (a : FilterArgs) (c : BaseCollection), (collectionMapStep a c).1 = none →
      ((collectionMapStep a c).2).total = 1) ∧
    (∀ (a : FilterArgs) (p : BasePost), (postMapStep a p).1 = none →
      ((postMapStep a p).2).total = 1) ∧
    (∀ (a : FilterArgs) (b : BaseBounty) (r : Option BaseBounty × Tally),
      bountyMapStep a b = .ok r → r.1 = none → ((r.2)).total = 1) ∧
    (∀ (a : FilterArgs) (m : BaseModel),
      ((ownerEq m.user.id a.currentUser || a.isModerator) && m.nsfwLevel == 0) = false →
      Flags.intersects m.nsfwLevel a.browsingLevel = false →
      modelFilterStep a m = (false, tallyB)) ∧
    (∀ (a : FilterArgs) (ar : BaseArticle),
      ((ownerEq ar.user.id a.currentUser || a.isModerator) && ar.nsfwLevel == 0) = false →
      Flags.intersects ar.nsfwLevel a.browsingLevel = false →
      articleStep a ar = (false, tallyB)) ∧
    (∀ (a : FilterArgs) (c : BaseCollection),
      ((jsTruthy (jsOr c.userId (c.user.map (·.id))) &&
        ownerEqOpt (jsOr c.userId (c.user.map (·.id))) a.currentUser || a.isModerator) &&
        c.nsfwLevel == 0) = false →
      Flags.intersects c.nsfwLevel a.browsingLevel = false →
      collectionFilterStep a c = (false, tallyB)) ∧
    (∀ (a : FilterArgs) (b : BaseBounty),
      ((ownerEq b.user.id a.currentUser || a.isModerator) && b.nsfwLevel == 0) = false →
      Flags.intersects b.nsfwLevel a.browsingLevel = false →
      bountyFilterStep a b = (false, tallyB)) ∧
    (∀ (a : FilterArgs) (p : BasePost),
      ((jsTruthy (jsOr p.userId (p.user.map (·.id))) &&
        ownerEqOpt (jsOr p.userId (p.user.map (·.id))) a.currentUser || a.isModerator) &&
        p.nsfwLevel == 0) = false →
      Flags.intersects p.nsfwLevel a.browsingLevel = false →
      postFilterStep a p = (false, tallyB)) ∧
    (∀ (a : FilterArgs) (i : BaseImage), a.allowLowerLevels = false →
      ((jsTruthy (jsOr i.userId (i.user.map (·.id))) &&
        ownerEqOpt (jsOr i.userId (i.user.map (·.id))) a.currentUser || a.isModerator) &&
        i.nsfwLevel == 0) = false →
      Flags.intersects i.nsfwLevel a.browsingLevel = false →
      imageStep a i = (false, tallyB)) ∧
    (∀ (a : FilterArgs) (l : List BaseImage), a.allowLowerLevels = false →
      ((imagesBranch a l).2).browsingLevel =
        l.countP (fun i =>
          !((jsTruthy (jsOr i.userId (i.user.map (·.id))) &&
            ownerEqOpt (jsOr i.userId (i.user.map (·.id))) a.currentUser || a.isModerator) &&
            i.nsfwLevel == 0) &&
          !Flags.intersects i.nsfwLevel a.browsingLevel)) := by
  refine ⟨?_, ?_, ?_, ?_, ?_, ?_, ?_, ?_, ?_, ?_, ?_, ?_, ?_, ?_, ?_, ?_, ?_, ?_, ?_⟩
  · intro a m h
    rcases modelFilterStep_cases a m with hc | hc | hc | hc | hc <;> rw [hc] at h ⊢ <;>
      first | rfl | cases h
  · intro a i h
    rcases imageStep_cases a i with hc | hc | hc | hc | hc <;> rw [hc] at h ⊢ <;>
      first | rfl | cases h
  · intro a ar h
    rcases articleStep_cases a ar with hc | hc | hc | hc | hc <;> rw [hc] at h ⊢ <;>
      first | rfl | cases h
  · intro a u h
    rcases userStep_cases a u with hc | hc <;> rw [hc] at h ⊢ <;>
      first | rfl | cases h
  · intro a c h
    rcases collectionFilterStep_excluded a c h with hc | hc | hc <;> rw [hc] <;> rfl
  · intro a b h
    rcases bountyFilterStep_cases a b with hc | hc | hc | hc | hc <;> rw [hc] at h ⊢ <;>
      first | rfl | cases h
  · intro a p h
    rcases postFilterStep_cases a p with hc | hc | hc <;> rw [hc] at h ⊢ <;>
      first | rfl | cases h
  · intro a t h
    rcases tagStep_cases a t with hc | hc | hc <;> rw [hc] at h ⊢ <;>
      first | rfl | cases h
  · intro a m h
    rw [modelMapStep_none_delta a m h]
    rfl
  · intro a c h
    rw [collectionMapStep_none_delta a c h]
    rfl
  · intro a p h
    rw [postMapStep_none_delta a p h]
    rfl
  · intro a b r hr h
    rw [bountyMapStep_none_delta a b r hr h]
    rfl
  · exact modelFilterStep_browsing
  · exact articleStep_browsing
  · exact collectionFilterStep_browsing
  · exact bountyFilterStep_browsing
  · exact postFilterStep_browsing
  · exact fun a i hA => imageStep_browsing a i hA
  · exact fun a l hA => imagesBranch_browsingLevel_count a l hA

/-- C2 counterexample: a model owned by the viewer with `nsfwLevel = 0` does
not intersect any browsing mask, yet it is included and
`hidden.browsingLevel` stays 0 — the owner/moderator override precedes the
browsing-level rule, refuting the claim's unconditional "is excluded and
increments hidden.browsingLevel". -/
theorem c2_counterexample :
    Flags.intersects 0 1 = false ∧
    filterPreferences
      { hiddenPreferences := {}, browsingLevel := 1, showImageless := false, currentUser := some { id := 3, isModerator := false } }
      (some (.models [{ id := 1, user := { id := 3 }, nsfwLevel := 0, images := some [{ id := 9, nsfwLevel := 1 }] }])) =
      .ok (.models [{ id := 1, user := { id := 3 }, nsfwLevel := 0, images := some [{ id := 9, nsfwLevel := 1 }] }], Tally.zero) :=
  ⟨rfl, rfl⟩

/-- Witness for C2: the images-branch browsing conjunct evaluated at a
concrete image whose level misses the mask: it is excluded with exactly the
`browsingLevel` counter. -/
theorem c2_witness :
    imageStep { hiddenPreferences := {}, browsingLevel := 1, allowLowerLevels := false }
      { id := 4, nsfwLevel := 8 } = (false, tallyB) :=
  c2_exclusions_single_counter.2.2.2.2.2.2.2.2.2.2.2.2.2.2.2.2.2.1
    { hiddenPreferences := {}, browsingLevel := 1, allowLowerLevels := false }
    { id := 4, nsfwLevel := 8 } rfl (by decide) (by decide)

/-! ## Claim C6 -/

theorem modelFilterStep_keep_intersects (a : FilterArgs) (m : BaseModel)
    (h1 : ((ownerEq m.user.id a.currentUser || a.isModerator) && m.nsfwLevel == 0) = false)
    (hk : (modelFilterStep a m).1 = true) :
    Flags.intersects m.nsfwLevel a.browsingLevel = true := by
  by_cases h2 : Flags.intersects m.nsfwLevel a.browsingLevel = true
  · exact h2
  · rw [modelFilterStep_browsing a m h1 (by simpa using h2)] at hk
    cases hk

/-- C6 (amended): only the standalone `images` branch honors
`allowLowerLevels`.  There, when the owner/moderator-level-0 override does
not fire, the item is excluded under the `browsingLevel` reason exactly when
its level exceeds `Flags.maxValue` of the mask (if `allowLowerLevels`) or
does not bit-intersect the mask (otherwise), and a kept image satisfies the
corresponding visibility condition.  Every other branch is completely
unchanged by `allowLowerLevels`; of these, models, articles, collections,
bounties and posts require plain bit-intersection for any item the override
does not force-include, while the users branch has no maturity rule at all
(its only exclusion is the hidden-users list) and the tags branch excludes
under the `browsingLevel` reason exactly by the above-PG13-and-not-moderated
threshold, not by intersection.  (The claim's "for every content item" is
refuted by the counterexample.) -/
theorem c6_browsing_visibility :
    (∀ (a : FilterArgs) (i : BaseImage), a.allowLowerLevels = true →
      ((jsTruthy (jsOr i.userId (i.user.map (·.id))) &&
        ownerEqOpt (jsOr i.userId (i.user.map (·.id))) a.currentUser || a.isModerator) &&
        i.nsfwLevel == 0) = false →
      (imageStep a i = (false, tallyB) ↔ Flags.maxValue a.browsingLevel < i.nsfwLevel)) ∧
    (∀ (a : FilterArgs) (i : BaseImage), a.allowLowerLevels = false →
      ((jsTruthy (jsOr i.userId (i.user.map (·.id))) &&
        ownerEqOpt (jsOr i.userId (i.user.map (·.id))) a.currentUser || a.isModerator) &&
        i.nsfwLevel == 0) = false →
      (imageStep a i = (false, tallyB) ↔
        Flags.intersects i.nsfwLevel a.browsingLevel = false)) ∧
    (∀ (a : FilterArgs) (i : BaseImage), a.allowLowerLevels = true →
      ((jsTruthy (jsOr i.userId (i.user.map (·.id))) &&
        ownerEqOpt (jsOr i.userId (i.user.map (·.id))) a.currentUser || a.isModerator) &&
        i.nsfwLevel == 0) = false →
      (imageStep a i).1 = true → i.nsfwLevel ≤ Flags.maxValue a.browsingLevel) ∧
    (∀ (a : FilterArgs) (i : BaseImage), a.allowLowerLevels = false →
      ((jsTruthy (jsOr i.userId (i.user.map (·.id))) &&
        ownerEqOpt (jsOr i.userId (i.user.map (·.id))) a.currentUser || a.isModerator) &&
        i.nsfwLevel == 0) = false →
      (imageStep a i).1 = true → Flags.intersects i.nsfwLevel a.browsingLevel = true) ∧
    (∀ (a : FilterArgs) (m : BaseModel),
      ((ownerEq m.user.id a.currentUser || a.isModerator) && m.nsfwLevel == 0) = false →
      (modelFilterStep a m).1 = true →
      Flags.intersects m.nsfwLevel a.browsingLevel = true) ∧
    (∀ (a : FilterArgs) (ar : BaseArticle),
      ((ownerEq ar.user.id a.currentUser || a.isModerator) && ar.nsfwLevel == 0) = false →
      (articleStep a ar).1 = true →
      Flags.intersects ar.nsfwLevel a.browsingLevel = true) ∧
    (∀ (a : FilterArgs) (c : BaseCollection),
      ((jsTruthy (jsOr c.userId (c.user.map (·.id))) &&
        ownerEqOpt (jsOr c.userId (c.user.map (·.id))) a.currentUser || a.isModerator) &&
        c.nsfwLevel == 0) = false →
      (collectionFilterStep a c).1 = true →
      Flags.intersects c.nsfwLevel a.browsingLevel = true) ∧
    (∀ (a : FilterArgs) (b : BaseBounty),
      ((ownerEq b.user.id a.currentUser || a.isModerator) && b.nsfwLevel == 0) = false →
      (bountyFilterStep a b).1 = true →
      Flags.intersects b.nsfwLevel a.browsingLevel = true) ∧
    (∀ (a : FilterArgs) (p : BasePost),
      ((jsTruthy (jsOr p.userId (p.user.map (·.id))) &&
        ownerEqOpt (jsOr p.userId (p.user.map (·.id))) a.currentUser || a.isModerator) &&
        p.nsfwLevel == 0) = false →
      (postFilterStep a p).1 = true →
      Flags.intersects p.nsfwLevel a.browsingLevel = true) ∧
    (∀ (a : FilterArgs) (u : BaseUser),
      userStep a u = (true, Tally.zero) ∨ userStep a u = (false, tallyU)) ∧
    (∀ (a : FilterArgs) (t : BaseTag),
      tagStep a t = (false, tallyB) ↔
        (a.hiddenPreferences.hiddenTags.get t.id = false ∧
         jsTruthy t.nsfwLevel = true ∧ NsfwLevel.PG13 < t.nsfwLevel.getD 0 ∧
         t.id ∉ moderatedTagIds a)) ∧
    (∀ (a : FilterArgs) (b : Bool) (l : List BaseModel),
      modelsBranch { a with allowLowerLevels := b } l = modelsBranch a l) ∧
    (∀ (a : FilterArgs) (b : Bool) (l : List BaseArticle),
      articlesBranch { a with allowLowerLevels := b } l = articlesBranch a l) ∧
    (∀ (a : FilterArgs) (b : Bool) (l : List BaseUser),
      usersBranch { a with allowLowerLevels := b } l = usersBranch a l) ∧
    (∀ (a : FilterArgs) (b : Bool) (l : List BaseCollection),
      collectionsBranch { a with allowLowerLevels := b } l = collectionsBranch a l) ∧
    (∀ (a : FilterArgs) (b : Bool) (l : List BaseBounty),
      bountiesBranch { a with allowLowerLevels := b } l = bountiesBranch a l) ∧
    (∀ (a : FilterArgs) (b : Bool) (l : List BasePost),
      postsBranch { a with allowLowerLevels := b } l = postsBranch a l) ∧
    (∀ (a : FilterArgs) (b : Bool) (l : List BaseTag),
      tagsBranch { a with allowLowerLevels := b } l = tagsBranch a l) :=
  ⟨imageStep_tallyB_iff_allow, imageStep_tallyB_iff_noallow,
   imageStep_keep_le_max, imageStep_keep_intersects,
   modelFilterStep_keep_intersects, articleStep_keep_intersects,
   collectionFilterStep_keep_intersects, bountyFilterStep_keep_intersects,
   postFilterStep_keep_intersects, userStep_cases, tagStep_tallyB_iff,
   modelsBranch_allow, articlesBranch_allow, usersBranch_allow,
   collectionsBranch_allow, bountiesBranch_allow, postsBranch_allow,
   tagsBranch_allow⟩

/-- C6 counterexample: a model of level PG (1) with browsing mask PG13 (2)
under `allowLowerLevels = true`: `1 ≤ Flags.maxValue 2`, so the claim says
the model is visible, but the models branch never honors `allowLowerLevels`
and excludes it by bit-intersection. -/
theorem c6_counterexample :
    (1 : Nat) ≤ Flags.maxValue 2 ∧
    filterPreferences
      { hiddenPreferences := {}, browsingLevel := 2, allowLowerLevels := true }
      (some (.models [{ id := 1, user := { id := 2 }, nsfwLevel := 1, images := some [] }])) =
      .ok (.models [], tallyB) :=
  ⟨by decide, rfl⟩

/-- Witness for C6: with `allowLowerLevels = true`, a standalone image of
level 4 against mask 2 (`Flags.maxValue 2 = 2 < 4`) is excluded under the
`browsingLevel` reason. -/
theorem c6_witness :
    imageStep { hiddenPreferences := {}, browsingLevel := 2, allowLowerLevels := true }
      { id := 1, nsfwLevel := 4 } = (false, tallyB) :=
  (c6_browsing_visibility.1
    { hiddenPreferences := {}, browsingLevel := 2, allowLowerLevels := true }
    { id := 1, nsfwLevel := 4 } rfl (by decide)).mpr (by decide)

/-! ## Claim C4 -/

theorem FilterArgs.isModerator_set_showHidden (a : FilterArgs) (b : Bool) :
    ({ a with showHidden := b } : FilterArgs).isModerator = a.isModerator := rfl

theorem modelFilterStep_showHidden_reveal (a : FilterArgs) (m : BaseModel)
    (hM : modelFilterStep { a with showHidden := false } m = (false, tallyM))
    (h5 : ((m.tags.getD []).any a.hiddenPreferences.hiddenTags.get) = false) :
    modelFilterStep { a with showHidden := true } m = (true, Tally.zero) := by
  unfold modelFilterStep at hM ⊢
  by_cases h1 : ((ownerEq m.user.id a.currentUser || a.isModerator) &&
      m.nsfwLevel == 0) = true
  · simp [FilterArgs.isModerator_set_showHidden, h1] at hM
  · by_cases h2 : (!Flags.intersects m.nsfwLevel a.browsingLevel) = true
    · simp [FilterArgs.isModerator_set_showHidden, h1, h2, tallyB, tallyM] at hM
    · by_cases h3 : (m.user.id != 0 &&
          a.hiddenPreferences.hiddenUsers.get m.user.id) = true
      · simp [FilterArgs.isModerator_set_showHidden, h1, h2, h3, tallyU, tallyM] at hM
      · simp [FilterArgs.isModerator_set_showHidden, h1, h2, h3, h5]

theorem imageStep_showHidden_reveal (a : FilterArgs) (i : BaseImage)
    (hI : imageStep { a with showHidden := false } i = (false, tallyI))
    (h5 : ((i.tagIds.getD []).any a.hiddenPreferences.hiddenTags.get) = false) :
    imageStep { a with showHidden := true } i = (true, Tally.zero) := by
  unfold imageStep at hI ⊢
  by_cases h1 : ((jsTruthy (jsOr i.userId (i.user.map (·.id))) &&
      ownerEqOpt (jsOr i.userId (i.user.map (·.id))) a.currentUser || a.isModerator) &&
      i.nsfwLevel == 0) = true
  · simp [FilterArgs.isModerator_set_showHidden, h1] at hI
  · by_cases h2 : (if a.allowLowerLevels
        then decide (i.nsfwLevel > Flags.maxValue a.browsingLevel)
        else !Flags.intersects i.nsfwLevel a.browsingLevel) = true
    · simp [FilterArgs.isModerator_set_showHidden, h1, h2, tallyB, tallyI] at hI
    · by_cases h3 : hiddenGetOpt a.hiddenPreferences.hiddenUsers
          (jsOr i.userId (i.user.map (·.id))) = true
      · simp [FilterArgs.isModerator_set_showHidden, h1, h2, h3, tallyU, tallyI] at hI
      · simp [FilterArgs.isModerator_set_showHidden, h1, h2, h3, h5]

theorem modelFilterStep_showHidden_excluded (a : FilterArgs) (m : BaseModel)
    (r : Tally) (hr : r = tallyB ∨ r = tallyU ∨ r = tallyT)
    (hM : modelFilterStep { a with showHidden := false } m = (false, r)) :
    modelFilterStep { a with showHidden := true } m = (false, r) := by
  unfold modelFilterStep at hM ⊢
  by_cases h1 : ((ownerEq m.user.id a.currentUser || a.isModerator) &&
      m.nsfwLevel == 0) = true
  · simp [FilterArgs.isModerator_set_showHidden, h1] at hM
  · by_cases h2 : (!Flags.intersects m.nsfwLevel a.browsingLevel) = true
    · simp [FilterArgs.isModerator_set_showHidden, h1, h2] at hM ⊢
      exact hM
    · by_cases h3 : (m.user.id != 0 &&
          a.hiddenPreferences.hiddenUsers.get m.user.id) = true
      · simp [FilterArgs.isModerator_set_showHidden, h1, h2, h3] at hM ⊢
        exact hM
      · by_cases h4 : a.hiddenPreferences.hiddenModels.get m.id = true
        · rcases hr with hr | hr | hr <;> subst hr <;>
            simp [FilterArgs.isModerator_set_showHidden, h1, h2, h3, h4, tallyM, tallyB, tallyU, tallyT] at hM
        · by_cases h5 : ((m.tags.getD []).any a.hiddenPreferences.hiddenTags.get) = true
          · simp [FilterArgs.isModerator_set_showHidden, h1, h2, h3, h4, h5] at hM ⊢
            exact hM
          · simp [FilterArgs.isModerator_set_showHidden, h1, h2, h3, h4, h5] at hM

theorem imageStep_showHidden_excluded (a : FilterArgs) (i : BaseImage)
    (r : Tally) (hr : r = tallyB ∨ r = tallyU ∨ r = tallyT)
    (hI : imageStep { a with showHidden := false } i = (false, r)) :
    imageStep { a with showHidden := true } i = (false, r) := by
  unfold imageStep at hI ⊢
  by_cases h1 : ((jsTruthy (jsOr i.userId (i.user.map (·.id))) &&
      ownerEqOpt (jsOr i.userId (i.user.map (·.id))) a.currentUser || a.isModerator) &&
      i.nsfwLevel == 0) = true
  · simp [FilterArgs.isModerator_set_showHidden, h1] at hI
  · by_cases h2 : (if a.allowLowerLevels
        then decide (i.nsfwLevel > Flags.maxValue a.browsingLevel)
        else !Flags.intersects i.nsfwLevel a.browsingLevel) = true
    · simp [FilterArgs.isModerator_set_showHidden, h1, h2] at hI ⊢
      exact hI
    · by_cases h3 : hiddenGetOpt a.hiddenPreferences.hiddenUsers
          (jsOr i.userId (i.user.map (·.id))) = true
      · simp [FilterArgs.isModerator_set_showHidden, h1, h2, h3] at hI ⊢
        exact hI
      · by_cases h4 : a.hiddenPreferences.hiddenImages.get i.id = true
        · rcases hr with hr | hr | hr <;> subst hr <;>
            simp [FilterArgs.isModerator_set_showHidden, h1, h2, h3, h4, tallyI, tallyB, tallyU, tallyT] at hI
        · by_cases h5 : ((i.tagIds.getD []).any a.hiddenPreferences.hiddenTags.get) = true
          · simp [FilterArgs.isModerator_set_showHidden, h1, h2, h3, h4, h5] at hI ⊢
            exact hI
          · simp [FilterArgs.isModerator_set_showHidden, h1, h2, h3, h4, h5] at hI

/-- C4 (confirmed): `showHidden = true` suppresses only the hidden-item-id
rule.  A model/image excluded at `showHidden = false` under the
`models`/`images` tally — with no hidden tag attached, i.e. excluded solely
by its own id — passes the filter at `showHidden = true` and appears in the
output (for models, provided the map phase keeps it, which is independent of
`showHidden`); while an item excluded under the browsing-level, hidden-users
or hidden-tags reason at `showHidden = false` is excluded with the same
reason at `showHidden = true`, and such an image never reaches the
output. -/
theorem c4_show_hidden_scope :
    (∀ (a : FilterArgs) (l : List BaseModel) (m : BaseModel) (m' : BaseModel) (d : Tally),
      m ∈ l →
      modelFilterStep { a with showHidden := false } m = (false, tallyM) →
      ((m.tags.getD []).any a.hiddenPreferences.hiddenTags.get) = false →
      modelMapStep { a with showHidden := true } m = (some m', d) →
      m' ∈ (modelsBranch { a with showHidden := true } l).1) ∧
    (∀ (a : FilterArgs) (l : List BaseImage) (i : BaseImage), i ∈ l →
      imageStep { a with showHidden := false } i = (false, tallyI) →
      ((i.tagIds.getD []).any a.hiddenPreferences.hiddenTags.get) = false →
      i ∈ (imagesBranch { a with showHidden := true } l).1) ∧
    (∀ (a : FilterArgs) (m : BaseModel) (r : Tally),
      r = tallyB ∨ r = tallyU ∨ r = tallyT →
      modelFilterStep { a with showHidden := false } m = (false, r) →
      modelFilterStep { a with showHidden := true } m = (false, r)) ∧
    (∀ (a : FilterArgs) (l : List BaseImage) (i : BaseImage) (r : Tally),
      r = tallyB ∨ r = tallyU ∨ r = tallyT →
      imageStep { a with showHidden := false } i = (false, r) →
      i ∉ (imagesBranch { a with showHidden := true } l).1) := by
  refine ⟨?_, ?_, ?_, ?_⟩
  · intro a l m m' d hm hM h5 hmap
    have hk : (modelFilterStep { a with showHidden := true } m).1 = true := by
      rw [modelFilterStep_showHidden_reveal a m hM h5]
    exact mem_mapPhase_of _ _ m m' (mem_filterPhase_of _ l m hm hk)
      (by rw [hmap])
  · intro a l i hi hI h5
    have hk : (imageStep { a with showHidden := true } i).1 = true := by
      rw [imageStep_showHidden_reveal a i hI h5]
    exact mem_filterPhase_of _ l i hi hk
  · exact modelFilterStep_showHidden_excluded
  · intro a l i r hr hI hmem
    have := (mem_filterPhase (imageStep { a with showHidden := true }) l i).mp hmem
    rw [imageStep_showHidden_excluded a i r hr hI] at this
    cases this.2

/-- Witness for C4: an image excluded only because its id is in the
hidden-images set is revealed by `showHidden = true`. -/
theorem c4_witness :
    ({ id := 7, nsfwLevel := 1 } : BaseImage) ∈
      (imagesBranch
        { hiddenPreferences := { hiddenImages := [(7, true)] }, browsingLevel := 1, showHidden := true }
        [{ id := 7, nsfwLevel := 1 }]).1 :=
  c4_show_hidden_scope.2.1
    { hiddenPreferences := { hiddenImages := [(7, true)] }, browsingLevel := 1 }
    [{ id := 7, nsfwLevel := 1 }] { id := 7, nsfwLevel := 1 }
    (by decide) (by decide) (by decide)

/-! ## Claim C5 -/

/-- C5: absent optional fields are defensively defaulted everywhere EXCEPT
the bounty map phase: a model with absent `images`/`tags`, a post with
absent `images`, and a standalone image with absent `tagIds`/owner all
return normally, but a bounty whose `images` field is absent makes the call
throw — `images?.filter(...)` leaves `filteredImages` undefined and line 382
reads `filteredImages.length` unguarded.  This contradicts the spec's
"absent arrays treated as empty, never an error" (a code bug: the `?.` two
lines earlier shows the intent). -/
theorem c5_absent_fields :
    filterPreferences { hiddenPreferences := {}, browsingLevel := 1 }
      (some (.models [{ id := 1, user := { id := 2 }, nsfwLevel := 1, images := none, tags := none }])) =
      .ok (.models [], { noImages := 1 }) ∧
    filterPreferences { hiddenPreferences := {}, browsingLevel := 1 }
      (some (.posts [{ nsfwLevel := 1, images := none }])) =
      .ok (.posts [{ nsfwLevel := 1, images := none }], Tally.zero) ∧
    filterPreferences { hiddenPreferences := {}, browsingLevel := 1 }
      (some (.images [{ id := 1, nsfwLevel := 1 }])) =
      .ok (.images [{ id := 1, nsfwLevel := 1 }], Tally.zero) ∧
    filterPreferences { hiddenPreferences := {}, browsingLevel := 1 }
      (some (.bounties [{ id := 1, user := { id := 2 }, nsfwLevel := 1, images := none }])) =
      .error "TypeError: Cannot read properties of undefined (reading length)" :=
  ⟨rfl, rfl, rfl, rfl⟩

/-! ## Claim C9 -/

theorem bountyMapStep_isOk (a : FilterArgs) (b : BaseBounty) (imgs : List SubImg)
    (hi : b.images = some imgs) : ∃ r, bountyMapStep a b = .ok r := by
  unfold bountyMapStep
  rw [hi]
  exact ⟨_, rfl⟩

theorem mapPhaseE_bounty_error_iff (a : FilterArgs) (l : List BaseBounty) :
    (∃ e, mapPhaseE (bountyMapStep a) l = .error e) ↔ ∃ b ∈ l, b.images = none := by
  induction l with
  | nil => simp [mapPhaseE]
  | cons x xs ih =>
    simp only [mapPhaseE]
    rcases hx : x.images with _ | imgs
    · rw [bountyMapStep_absent a x hx]
      simp [hx]
    · obtain ⟨rx, hrx⟩ := bountyMapStep_isOk a x imgs hx
      rw [hrx]
      cases hrest : mapPhaseE (bountyMapStep a) xs with
      | error e =>
        simp only [hrest]
        constructor
        · intro
          exact ⟨(ih.mp ⟨e, hrest⟩).choose, by
            have := (ih.mp ⟨e, hrest⟩).choose_spec
            exact ⟨List.mem_cons_of_mem x this.1, this.2⟩⟩
        · intro
          exact ⟨e, rfl⟩
      | ok rrest =>
        simp only [hrest]
        constructor
        · intro he
          obtain ⟨e, he⟩ := he
          simp at he
        · intro hb
          rcases hb with ⟨b, hbmem, hbnone⟩
          rcases List.mem_cons.mp hbmem with hbx | hbxs
          · subst hbx
            rw [hbnone] at hx
            cases hx
          · exact absurd (ih.mpr ⟨b, hbxs, hbnone⟩) (by simp [hrest])

theorem bountiesBranch_error_iff (a : FilterArgs) (l : List BaseBounty) :
    (∃ e, bountiesBranch a l = .error e) ↔
      ∃ b ∈ (filterPhase (bountyFilterStep a) l).1, b.images = none := by
  rw [← mapPhaseE_bounty_error_iff a (filterPhase (bountyFilterStep a) l).1]
  unfold bountiesBranch
  cases hm : mapPhaseE (bountyMapStep a) (filterPhase (bountyFilterStep a) l).1 with
  | error e => simp [hm]
  | ok rm => simp [hm]

/-- C9 (amended): `filterPreferences` returns an error (propagated
immediately to the caller as the call's result) if and only if the call is
not short-circuited (`data` present, not `disabled`, preferences loaded) and
either the content type is outside the closed set (the switch `default`
throws), or the type is `bounties` and some bounty surviving the filter
stage has an absent `images` field (the line-382 `TypeError`).  As stated
the claim is false in both directions: a disabled call with a bogus type
returns `[]` without error, and an in-set bounties call can throw. -/
theorem c9_error_characterization (a : FilterArgs) (d : Option TypedData) :
    (∃ e, filterPreferences a d = .error e) ↔
      ((d.isNone || a.disabled || a.hiddenPreferences.hiddenLoading) = false ∧
       ((∃ s, d = some (.unknown s)) ∨
        (∃ l, d = some (.bounties l) ∧
          ∃ b ∈ (filterPhase (bountyFilterStep a) l).1, b.images = none))) := by
  unfold filterPreferences
  by_cases hsc : (d.isNone || a.disabled || a.hiddenPreferences.hiddenLoading) = true
  · simp [hsc]
  · rw [Bool.not_eq_true] at hsc
    rw [if_neg (by simp [hsc])]
    cases d with
    | none => simp at hsc
    | some td =>
      have hds : a.disabled = false ∧ a.hiddenPreferences.hiddenLoading = false := by
        simpa using hsc
      cases td with
      | bounties l =>
        have hiff := bountiesBranch_error_iff a l
        cases hb : bountiesBranch a l with
        | error e =>
          have hP := hiff.mp ⟨e, hb⟩
          simp only [hb]
          constructor
          · intro
            exact ⟨by simp [hds.1, hds.2], Or.inr ⟨l, rfl, hP⟩⟩
          · intro
            exact ⟨e, rfl⟩
        | ok r =>
          simp only [hb]
          constructor
          · intro he
            obtain ⟨e, he⟩ := he
            simp at he
          · rintro ⟨-, hdisj⟩
            rcases hdisj with ⟨s, hs⟩ | ⟨l2, hl2, hP⟩
            · simp at hs
            · simp only [Option.some.injEq, TypedData.bounties.injEq] at hl2
              subst hl2
              obtain ⟨e, he⟩ := hiff.mpr hP
              rw [hb] at he
              cases he
      | unknown s => simp [hds.1, hds.2]
      | models l => simp [hds.1, hds.2]
      | images l => simp [hds.1, hds.2]
      | articles l => simp [hds.1, hds.2]
      | users l => simp [hds.1, hds.2]
      | collections l => simp [hds.1, hds.2]
      | posts l => simp [hds.1, hds.2]
      | tags l => simp [hds.1, hds.2]

/-- C9 counterexample: a disabled call with a content type outside the
closed set short-circuits to an empty result instead of raising — the
`!data || disabled || hiddenLoading` check precedes the switch. -/
theorem c9_counterexample :
    filterPreferences { hiddenPreferences := {}, browsingLevel := 1, disabled := true }
      (some (.unknown "bogus")) = .ok (.empty, Tally.zero) := rfl

/-- Witness for C9: a live call with an unknown content type does raise. -/
theorem c9_witness :
    ∃ e, filterPreferences { hiddenPreferences := {}, browsingLevel := 1 }
      (some (.unknown "bogus")) = .error e :=
  (c9_error_characterization { hiddenPreferences := {}, browsingLevel := 1 }
    (some (.unknown "bogus"))).mpr ⟨rfl, Or.inl ⟨"bogus", rfl⟩⟩

/-! ## Claim C10 -/

/-- C10 (confirmed): `hiddenCount` as computed by the hook equals the sum of
the `browsingLevel`, `models`, `images`, `tags` and `users` counters of the
tally only; the `noImages` counter and the (always zero) `unprocessed`
counter are exactly the part of the tally total it leaves out. -/
theorem c10_hidden_count (hp : HiddenPreferencesState) (sysBL : Nat)
    (cu : Option CivitaiSessionUser) (data : Option TypedData)
    (sh si dis : Bool) (hImO hUO hTO : List Nat) (blO : Option Nat) (allow : Bool)
    (out : ItemsOut) (t : Tally)
    (h : filterPreferences (hookArgs hp sysBL cu sh si dis hImO hUO hTO blO allow) data =
      .ok (out, t)) :
    useApplyHiddenPreferencesModel hp sysBL cu data sh si dis hImO hUO hTO blO allow =
      .ok (out, t.browsingLevel + t.models + t.images + t.tags + t.users) ∧
    t.unprocessed = 0 ∧
    t.browsingLevel + t.models + t.images + t.tags + t.users + t.noImages + t.unprocessed =
      t.total := by
  have hu := filterPreferences_unprocessed _ _ _ _ h
  refine ⟨?_, hu, ?_⟩
  · unfold useApplyHiddenPreferencesModel
    rw [h]
  · unfold Tally.total
    rw [hu]
    omega

/-- Witness for C10: one standalone image excluded by browsing level:
`hiddenCount = 1`, `noImages` and `unprocessed` uncounted. -/
theorem c10_witness :
    useApplyHiddenPreferencesModel {} 1 none (some (.images [{ id := 7, nsfwLevel := 8 }]))
        false false false [] [] [] none false =
      .ok (.images [], tallyB.browsingLevel + tallyB.models + tallyB.images +
        tallyB.tags + tallyB.users) ∧
    tallyB.unprocessed = 0 ∧
    tallyB.browsingLevel + tallyB.models + tallyB.images + tallyB.tags + tallyB.users +
      tallyB.noImages + tallyB.unprocessed = tallyB.total :=
  c10_hidden_count {} 1 none (some (.images [{ id := 7, nsfwLevel := 8 }]))
    false false false [] [] [] none false (.images []) tallyB rfl

/-! ## Claim C7 -/

theorem filter_nsfwSortImages_pos (bl : Nat) (l : List ModelImg) :
    (nsfwSortImages bl l).filter (fun i => Flags.intersects i.nsfwLevel bl) =
      l.filter (fun i => Flags.intersects i.nsfwLevel bl) := by
  unfold nsfwSortImages
  rw [List.filter_append]
  have h1 : (l.filter (fun i => Flags.intersects i.nsfwLevel bl)).filter
      (fun i => Flags.intersects i.nsfwLevel bl) =
      l.filter (fun i => Flags.intersects i.nsfwLevel bl) :=
    List.filter_eq_self.mpr (fun x hx => (List.mem_filter.mp hx).2)
  have h2 : (l.filter (fun i => !Flags.intersects i.nsfwLevel bl)).filter
      (fun i => Flags.intersects i.nsfwLevel bl) = [] :=
    List.filter_eq_nil_iff.mpr (fun x hx => by
      have := (List.mem_filter.mp hx).2
      simp at this
      simp [this])
  rw [h1, h2, List.append_nil]

theorem filter_nsfwSortImages_neg (bl : Nat) (l : List ModelImg) :
    (nsfwSortImages bl l).filter (fun i => !Flags.intersects i.nsfwLevel bl) =
      l.filter (fun i => !Flags.intersects i.nsfwLevel bl) := by
  unfold nsfwSortImages
  rw [List.filter_append]
  have h1 : (l.filter (fun i => Flags.intersects i.nsfwLevel bl)).filter
      (fun i => !Flags.intersects i.nsfwLevel bl) = [] :=
    List.filter_eq_nil_iff.mpr (fun x hx => by
      have := (List.mem_filter.mp hx).2
      simp [this])
  have h2 : (l.filter (fun i => !Flags.intersects i.nsfwLevel bl)).filter
      (fun i => !Flags.intersects i.nsfwLevel bl) =
      l.filter (fun i => !Flags.intersects i.nsfwLevel bl) :=
    List.filter_eq_self.mpr (fun x hx => (List.mem_filter.mp hx).2)
  rw [h1, h2, List.nil_append]

theorem nsfwSortImages_partition (bl : Nat) (l : List ModelImg) :
    nsfwSortImages bl l =
      (nsfwSortImages bl l).filter (fun i => Flags.intersects i.nsfwLevel bl) ++
      (nsfwSortImages bl l).filter (fun i => !Flags.intersects i.nsfwLevel bl) := by
  rw [filter_nsfwSortImages_pos, filter_nsfwSortImages_neg]
  rfl

theorem modelMapStep_some_eq (a : FilterArgs) (m m' : BaseModel)
    (h : (modelMapStep a m).1 = some m') :
    m' = { m with images := some (modelSortedImages a m) } := by
  unfold modelMapStep at h
  by_cases hk : ((modelSortedImages a m).length != 0 || a.showImageless) = true
  · simp [hk] at h
    exact h.symm
  · simp [hk] at h

theorem collectionMapStep_some_eq (a : FilterArgs) (c c' : BaseCollection)
    (h : (collectionMapStep a c).1 = some c') :
    c' = { c with image := none, images := some (collectionFilteredImages a c) } := by
  unfold collectionMapStep at h
  by_cases hk : ((collectionFilteredImages a c).length != 0 || a.showImageless) = true
  · simp [hk] at h
    exact h.symm
  · simp [hk] at h

theorem postMapStep_some_strip (a : FilterArgs) (p p' : BasePost)
    (h : (postMapStep a p).1 = some p') :
    ({ p' with images := none } : BasePost) = { p with images := none } := by
  unfold postMapStep at h
  rcases hi : p.images with _ | imgs <;> rw [hi] at h
  · simp at h
    rw [h]
  · by_cases hk : ((imgs.filter (postImageStep a)).length != 0 || a.showImageless) = true
    · simp [hk] at h
      rw [← h]
    · simp [hk] at h

theorem mapPhaseE_map_sublist (step : α → Except String (Option β × Tally))
    (l : List α) (r : List β × Tally) (g : β → γ) (g' : α → γ)
    (hr : mapPhaseE step l = .ok r)
    (h : ∀ x y d, step x = .ok (some y, d) → g y = g' x) :
    List.Sublist (r.1.map g) (l.map g') := by
  induction l generalizing r with
  | nil =>
    simp only [mapPhaseE] at hr
    cases hr
    simp
  | cons x xs ih =>
    simp only [mapPhaseE] at hr
    cases hx : step x with
    | error e => rw [hx] at hr; simp at hr
    | ok rx =>
      rw [hx] at hr
      cases hrest : mapPhaseE step xs with
      | error e => rw [hrest] at hr; simp at hr
      | ok rrest =>
        rw [hrest] at hr
        simp at hr
        rw [← hr]
        cases hrx : rx.1 with
        | none => exact (ih rrest hrest).cons _
        | some y =>
          simp only [List.map_cons]
          have hgy : g y = g' x := h x y rx.2 (by rw [hx, ← hrx])
          rw [hgy]
          exact (ih rrest hrest).cons₂ _

/-- C7 (confirmed): filtering is stable.  The plain-filter branches return a
sublist of the input; the container branches return items whose ids (posts:
whose image-stripped bodies) form a sublist of the input's, and every output
model's images come from its source model's images in order — unchanged
relative order when `nsfw` is false, and, when `nsfw` is true, the stable
two-class partition with images whose level intersects the browsing mask
first (each class in original relative order).  (JS `Array.prototype.sort`
is stable; with the three-way comparator of lines 190–194 it is embedded as
the stable partition `nsfwSortImages`.) -/
theorem c7_stable_order :
    (∀ (a : FilterArgs) (l : List BaseImage),
      List.Sublist (imagesBranch a l).1 l) ∧
    (∀ (a : FilterArgs) (l : List BaseArticle),
      List.Sublist (articlesBranch a l).1 l) ∧
    (∀ (a : FilterArgs) (l : List BaseUser),
      List.Sublist (usersBranch a l).1 l) ∧
    (∀ (a : FilterArgs) (l : List BaseTag),
      List.Sublist (tagsBranch a l).1 l) ∧
    (∀ (a : FilterArgs) (l : List BaseModel),
      List.Sublist ((modelsBranch a l).1.map (·.id)) (l.map (·.id))) ∧
    (∀ (a : FilterArgs) (l : List BaseModel) (m' : BaseModel),
      m' ∈ (modelsBranch a l).1 →
      ∃ m, m ∈ l ∧ m'.id = m.id ∧ ∃ imgs', m'.images = some imgs' ∧
        (if m.nsfw = true then
          imgs' = imgs'.filter (fun i => Flags.intersects i.nsfwLevel a.browsingLevel) ++
            imgs'.filter (fun i => !Flags.intersects i.nsfwLevel a.browsingLevel) ∧
          List.Sublist
            (imgs'.filter (fun i => Flags.intersects i.nsfwLevel a.browsingLevel))
            (m.images.getD []) ∧
          List.Sublist
            (imgs'.filter (fun i => !Flags.intersects i.nsfwLevel a.browsingLevel))
            (m.images.getD [])
         else List.Sublist imgs' (m.images.getD []))) ∧
    (∀ (a : FilterArgs) (l : List BaseCollection),
      List.Sublist ((collectionsBranch a l).1.map (·.id)) (l.map (·.id))) ∧
    (∀ (a : FilterArgs) (l : List BasePost),
      List.Sublist
        ((postsBranch a l).1.map (fun p => ({ p with images := none } : BasePost)))
        (l.map (fun p => ({ p with images := none } : BasePost)))) ∧
    (∀ (a : FilterArgs) (l : List BaseBounty) (r : List BaseBounty × Tally),
      bountiesBranch a l = .ok r →
      List.Sublist (r.1.map (·.id)) (l.map (·.id))) := by
  refine ⟨?_, ?_, ?_, ?_, ?_, ?_, ?_, ?_, ?_⟩
  · exact fun a l => filterPhase_sublist _ l
  · exact fun a l => filterPhase_sublist _ l
  · exact fun a l => filterPhase_sublist _ l
  · exact fun a l => filterPhase_sublist _ l
  · intro a l
    have h1 : List.Sublist
        (((filterPhase (modelFilterStep a) l).1.filterMap
          (fun m => (modelMapStep a m).1)).map (·.id))
        ((filterPhase (modelFilterStep a) l).1.map (·.id)) := by
      refine filterMap_map_sublist _ _ _ ?_ _
      intro m m' hm
      rw [modelMapStep_some_eq a m m' hm]
    have h2 := (filterPhase_sublist (modelFilterStep a) l).map (·.id)
    have : (modelsBranch a l).1.map (·.id) =
        (((filterPhase (modelFilterStep a) l).1.filterMap
          (fun m => (modelMapStep a m).1)).map (·.id)) := by
      unfold modelsBranch
      rw [mapPhase_fst]
    rw [this]
    exact h1.trans h2
  · intro a l m' hm'
    have hmem : m' ∈ (mapPhase (modelMapStep a) (filterPhase (modelFilterStep a) l).1).1 := hm'
    obtain ⟨m, hm, hstep⟩ := (mem_mapPhase _ _ m').mp hmem
    have hmeml : m ∈ l := (mem_filterPhase _ _ m).mp hm |>.1
    have heq := modelMapStep_some_eq a m m' hstep
    refine ⟨m, hmeml, by rw [heq], modelSortedImages a m, by rw [heq], ?_⟩
    by_cases hn : m.nsfw = true
    · rw [if_pos hn]
      unfold modelSortedImages
      rw [if_pos hn]
      refine ⟨nsfwSortImages_partition a.browsingLevel (modelFilteredImages a m), ?_, ?_⟩
      · rw [filter_nsfwSortImages_pos]
        exact (List.filter_sublist _).trans (List.filter_sublist _)
      · rw [filter_nsfwSortImages_neg]
        exact (List.filter_sublist _).trans (List.filter_sublist _)
    · rw [if_neg hn]
      unfold modelSortedImages
      rw [if_neg hn]
      exact List.filter_sublist _
  · intro a l
    have h1 : List.Sublist
        (((filterPhase (collectionFilterStep a) l).1.filterMap
          (fun c => (collectionMapStep a c).1)).map (·.id))
        ((filterPhase (collectionFilterStep a) l).1.map (·.id)) := by
      refine filterMap_map_sublist _ _ _ ?_ _
      intro c c' hc
      rw [collectionMapStep_some_eq a c c' hc]
    have h2 := (filterPhase_sublist (collectionFilterStep a) l).map (·.id)
    have : (collectionsBranch a l).1.map (·.id) =
        (((filterPhase (collectionFilterStep a) l).1.filterMap
          (fun c => (collectionMapStep a c).1)).map (·.id)) := by
      unfold collectionsBranch
      rw [mapPhase_fst]
    rw [this]
    exact h1.trans h2
  · intro a l
    have h1 : List.Sublist
        (((filterPhase (postFilterStep a) l).1.filterMap
          (fun p => (postMapStep a p).1)).map (fun p => ({ p with images := none } : BasePost)))
        ((filterPhase (postFilterStep a) l).1.map
          (fun p => ({ p with images := none } : BasePost))) := by
      refine filterMap_map_sublist _ _ _ ?_ _
      intro p p' hp
      exact postMapStep_some_strip a p p' hp
    have h2 := (filterPhase_sublist (postFilterStep a) l).map
      (fun p => ({ p with images := none } : BasePost))
    have : (postsBranch a l).1.map (fun p => ({ p with images := none } : BasePost)) =
        (((filterPhase (postFilterStep a) l).1.filterMap
          (fun p => (postMapStep a p).1)).map
          (fun p => ({ p with images := none } : BasePost))) := by
      unfold postsBranch
      rw [mapPhase_fst]
    rw [this]
    exact h1.trans h2
  · intro a l r hr
    unfold bountiesBranch at hr
    cases hm : mapPhaseE (bountyMapStep a) (filterPhase (bountyFilterStep a) l).1 with
    | error e => rw [hm] at hr; simp at hr
    | ok rm =>
      rw [hm] at hr
      simp at hr
      have h1 : List.Sublist (rm.1.map (·.id))
          ((filterPhase (bountyFilterStep a) l).1.map (·.id)) := by
        refine mapPhaseE_map_sublist _ _ rm _ _ hm ?_
        intro b b' d hb
        unfold bountyMapStep at hb
        rcases hi : b.images with _ | imgs <;> rw [hi] at hb
        · simp at hb
        · by_cases hk : ((imgs.filter (subImageStep a)).length != 0) = true
          · simp [hk] at hb
            rw [← hb.1]
          · simp [hk] at hb
      have h2 := (filterPhase_sublist (bountyFilterStep a) l).map (·.id)
      rw [← hr]
      exact h1.trans h2

/-- Witness for C7: a concrete bounties call whose output ids form a sublist
of the input ids. -/
theorem c7_witness :
    List.Sublist
      ([({ id := 1, user := { id := 2 }, nsfwLevel := 1, images := some [{ id := 3, nsfwLevel := 1, userId := 4 }] } : BaseBounty)].map (·.id))
      ([({ id := 1, user := { id := 2 }, nsfwLevel := 1, images := some [{ id := 3, nsfwLevel := 1, userId := 4 }] } : BaseBounty)].map (·.id)) :=
  c7_stable_order.2.2.2.2.2.2.2.2
    { hiddenPreferences := {}, browsingLevel := 1 }
    [{ id := 1, user := { id := 2 }, nsfwLevel := 1, images := some [{ id := 3, nsfwLevel := 1, userId := 4 }] }]
    ([{ id := 1, user := { id := 2 }, nsfwLevel := 1, images := some [{ id := 3, nsfwLevel := 1, userId := 4 }] }], Tally.zero)
    rfl

/-! ## Claim C8 -/

theorem modelFilterStep_set_images (a : FilterArgs) (m : BaseModel) (v : Option (List ModelImg)) :
    modelFilterStep a { m with images := v } = modelFilterStep a m := rfl

theorem postFilterStep_set_images (a : FilterArgs) (p : BasePost) (v : Option (List PostImg)) :
    postFilterStep a { p with images := v } = postFilterStep a p := rfl

theorem BaseModel_set_images_self (m : BaseModel) (v : Option (List ModelImg))
    (h : m.images = v) : { m with images := v } = m := by
  cases m; subst h; rfl

theorem BaseCollection_set_self (c : BaseCollection) (v : Option (List SubImg))
    (h1 : c.image = none) (h2 : c.images = v) :
    { c with image := none, images := v } = c := by
  cases c; subst h2; rw [← h1]

theorem BasePost_set_images_self (p : BasePost) (v : Option (List PostImg))
    (h : p.images = v) : { p with images := v } = p := by
  cases p; subst h; rfl

theorem BaseBounty_set_images_self (b : BaseBounty) (v : Option (List SubImg))
    (h : b.images = v) : { b with images := v } = b := by
  cases b; subst h; rfl

theorem mem_nsfwSortImages (bl : Nat) (l : List ModelImg) (i : ModelImg) :
    i ∈ nsfwSortImages bl l ↔ i ∈ l := by
  unfold nsfwSortImages
  simp only [List.mem_append, List.mem_filter]
  by_cases h : Flags.intersects i.nsfwLevel bl = true <;> simp [h]

theorem mem_modelSortedImages (a : FilterArgs) (m : BaseModel) (i : ModelImg) :
    i ∈ modelSortedImages a m ↔ i ∈ modelFilteredImages a m := by
  unfold modelSortedImages
  by_cases hn : m.nsfw = true
  · rw [if_pos hn, mem_nsfwSortImages]
  · rw [if_neg hn]

theorem nsfwSortImages_idem (bl : Nat) (l : List ModelImg) :
    nsfwSortImages bl (nsfwSortImages bl l) = nsfwSortImages bl l := by
  show (nsfwSortImages bl l).filter (fun i => Flags.intersects i.nsfwLevel bl) ++
      (nsfwSortImages bl l).filter (fun i => !Flags.intersects i.nsfwLevel bl) =
      nsfwSortImages bl l
  rw [filter_nsfwSortImages_pos, filter_nsfwSortImages_neg]
  rfl

theorem modelMapStep_keep_cond (a : FilterArgs) (m : BaseModel) (m' : BaseModel)
    (h : (modelMapStep a m).1 = some m') :
    ((modelSortedImages a m).length != 0 || a.showImageless) = true := by
  by_cases hk : ((modelSortedImages a m).length != 0 || a.showImageless) = true
  · exact hk
  · unfold modelMapStep at h
    simp [hk] at h

theorem modelMapStep_idem (a : FilterArgs) (m m' : BaseModel)
    (h : (modelMapStep a m).1 = some m') : (modelMapStep a m').1 = some m' := by
  have heq := modelMapStep_some_eq a m m' h
  have hkeep := modelMapStep_keep_cond a m m' h
  have hfi : modelFilteredImages a m' = modelSortedImages a m := by
    rw [heq]
    show (modelSortedImages a m).filter (modelImageStep a m.nsfw) = modelSortedImages a m
    apply List.filter_eq_self.mpr
    intro i hi
    have himem := (mem_modelSortedImages a m i).mp hi
    exact (List.mem_filter.mp himem).2
  have hnsfw : m'.nsfw = m.nsfw := by rw [heq]
  have hsi : modelSortedImages a m' = modelSortedImages a m := by
    by_cases hn : m.nsfw = true
    · have h1 : modelSortedImages a m' =
          nsfwSortImages a.browsingLevel (modelFilteredImages a m') := by
        unfold modelSortedImages
        rw [hnsfw, if_pos hn]
      have h2 : modelSortedImages a m =
          nsfwSortImages a.browsingLevel (modelFilteredImages a m) := by
        unfold modelSortedImages
        rw [if_pos hn]
      rw [h1, hfi]
      conv_rhs => rw [h2]
      rw [← h2, ← hfi]
      rw [hfi, h2, nsfwSortImages_idem]
    · have h1 : modelSortedImages a m' = modelFilteredImages a m' := by
        unfold modelSortedImages
        rw [hnsfw, if_neg hn]
      rw [h1, hfi]
  unfold modelMapStep
  rw [hsi]
  rw [if_pos hkeep]
  rw [BaseModel_set_images_self m' (some (modelSortedImages a m)) (by rw [heq])]

theorem collectionFilterStep_imageNone_keep (a : FilterArgs) (c : BaseCollection)
    (v : Option (List SubImg)) (hk : (collectionFilterStep a c).1 = true) :
    (collectionFilterStep a { c with image := none, images := v }).1 = true := by
  unfold collectionFilterStep at hk ⊢
  by_cases h1 : ((jsTruthy (jsOr c.userId (c.user.map (·.id))) &&
      ownerEqOpt (jsOr c.userId (c.user.map (·.id))) a.currentUser || a.isModerator) &&
      c.nsfwLevel == 0) = true <;>
    by_cases h2 : (!Flags.intersects c.nsfwLevel a.browsingLevel) = true <;>
    by_cases h3 : hiddenGetOpt a.hiddenPreferences.hiddenUsers
      (jsOr c.userId (c.user.map (·.id))) = true <;>
    simp [h1, h2, h3] at hk ⊢

theorem collectionMapStep_keep_cond (a : FilterArgs) (c c' : BaseCollection)
    (h : (collectionMapStep a c).1 = some c') :
    ((collectionFilteredImages a c).length != 0 || a.showImageless) = true := by
  by_cases hk : ((collectionFilteredImages a c).length != 0 || a.showImageless) = true
  · exact hk
  · unfold collectionMapStep at h
    simp [hk] at h

theorem collectionMapStep_idem (a : FilterArgs) (c c' : BaseCollection)
    (h : (collectionMapStep a c).1 = some c') : (collectionMapStep a c').1 = some c' := by
  have heq := collectionMapStep_some_eq a c c' h
  have hkeep := collectionMapStep_keep_cond a c c' h
  have hm : collectionMergedImages c' = collectionFilteredImages a c := by
    rw [heq]
    rfl
  have hfi : collectionFilteredImages a c' = collectionFilteredImages a c := by
    have h1 : collectionFilteredImages a c' =
        (collectionMergedImages c').filter (subImageStep a) := rfl
    rw [h1, hm]
    apply List.filter_eq_self.mpr
    intro i hi
    exact (List.mem_filter.mp hi).2
  unfold collectionMapStep
  rw [hfi, if_pos hkeep]
  rw [BaseCollection_set_self c' (some (collectionFilteredImages a c)) (by rw [heq])
    (by rw [heq])]

theorem postMapStep_some_cases (a : FilterArgs) (p p' : BasePost)
    (h : (postMapStep a p).1 = some p') :
    (p.images = none ∧ p' = p) ∨
    (∃ imgs, p.images = some imgs ∧
      p' = { p with images := some (imgs.filter (postImageStep a)) } ∧
      ((imgs.filter (postImageStep a)).length != 0 || a.showImageless) = true) := by
  unfold postMapStep at h
  rcases hi : p.images with _ | imgs <;> rw [hi] at h
  · simp at h
    exact Or.inl ⟨rfl, h.symm⟩
  · by_cases hk : ((imgs.filter (postImageStep a)).length != 0 || a.showImageless) = true
    · simp [hk] at h
      exact Or.inr ⟨imgs, rfl, h.symm, hk⟩
    · simp [hk] at h

theorem postMapStep_idem (a : FilterArgs) (p p' : BasePost)
    (h : (postMapStep a p).1 = some p') : (postMapStep a p').1 = some p' := by
  rcases postMapStep_some_cases a p p' h with ⟨hi, hp⟩ | ⟨imgs, hi, hp, hk⟩
  · have hi2 : p'.images = none := by rw [hp, hi]
    rw [postMapStep_noImages a p' hi2]
  · have hi' : p'.images = some (imgs.filter (postImageStep a)) := by rw [hp]
    have hff : (imgs.filter (postImageStep a)).filter (postImageStep a) =
        imgs.filter (postImageStep a) :=
      List.filter_eq_self.mpr (fun x hx => (List.mem_filter.mp hx).2)
    unfold postMapStep
    rw [hi']
    simp only [hff, hk, if_true]
    rw [BasePost_set_images_self p' (some (imgs.filter (postImageStep a))) hi']

theorem any_filter_false (f g : α → Bool) (l : List α) (h : l.any f = false) :
    (l.filter g).any f = false := by
  rw [List.any_eq_false] at h ⊢
  intro x hx
  exact h x (List.mem_of_mem_filter hx)

theorem bountyMapStep_some_cases (a : FilterArgs) (b b' : BaseBounty) (d : Tally)
    (h : bountyMapStep a b = .ok (some b', d)) :
    ∃ imgs, b.images = some imgs ∧
      b' = { b with images := some (imgs.filter (subImageStep a)) } ∧
      ((imgs.filter (subImageStep a)).length != 0) = true := by
  unfold bountyMapStep at h
  rcases hi : b.images with _ | imgs <;> rw [hi] at h
  · simp at h
  · by_cases hk : ((imgs.filter (subImageStep a)).length != 0) = true
    · simp [hk] at h
      exact ⟨imgs, rfl, h.1.symm, hk⟩
    · simp [hk] at h

theorem bountyFilterStep_filtered_keep (a : FilterArgs) (b : BaseBounty)
    (imgs : List SubImg) (hi : b.images = some imgs)
    (hk : (bountyFilterStep a b).1 = true) :
    (bountyFilterStep a { b with images := some (imgs.filter (subImageStep a)) }).1 =
      true := by
  unfold bountyFilterStep at hk ⊢
  by_cases h1 : ((ownerEq b.user.id a.currentUser || a.isModerator) &&
      b.nsfwLevel == 0) = true
  · simp [h1]
  · by_cases h2 : (!Flags.intersects b.nsfwLevel a.browsingLevel) = true
    · simp [h1, h2] at hk
    · by_cases h3 : a.hiddenPreferences.hiddenUsers.get b.user.id = true
      · simp [h1, h2, h3] at hk
      · by_cases h4 : ((b.images.getD []).any
            (fun i => a.hiddenPreferences.hiddenImages.get i.id)) = true
        · simp [h1, h2, h3, h4] at hk
        · by_cases h5 : ((b.tags.getD []).any a.hiddenPreferences.hiddenTags.get) = true
          · simp [h1, h2, h3, h4, h5] at hk
          · have h4' : ((imgs.filter (subImageStep a)).any
                (fun i => a.hiddenPreferences.hiddenImages.get i.id)) = false := by
              apply any_filter_false
              rw [hi] at h4
              simpa using h4
            simp [h1, h2, h3, h4', h5]

theorem bountyMapStep_idem (a : FilterArgs) (b b' : BaseBounty) (d : Tally)
    (h : bountyMapStep a b = .ok (some b', d)) :
    bountyMapStep a b' = .ok (some b', Tally.zero) := by
  obtain ⟨imgs, hi, hb', hk⟩ := bountyMapStep_some_cases a b b' d h
  have hi' : b'.images = some (imgs.filter (subImageStep a)) := by rw [hb']
  have hff : (imgs.filter (subImageStep a)).filter (subImageStep a) =
      imgs.filter (subImageStep a) :=
    List.filter_eq_self.mpr (fun x hx => (List.mem_filter.mp hx).2)
  unfold bountyMapStep
  rw [hi']
  simp only [hff, hk, if_true]
  rw [BaseBounty_set_images_self b' (some (imgs.filter (subImageStep a))) hi']
  have hlen : ((imgs.filter (subImageStep a)).length == 0) = false := by
    cases hl : ((imgs.filter (subImageStep a)).length == 0) with
    | false => rfl
    | true =>
      rw [bne] at hk
      rw [hl] at hk
      cases hk
  rw [hlen]
  rfl

theorem mapPhaseE_eq_self (step : α → Except String (Option α × Tally)) (l : List α)
    (h : ∀ x ∈ l, ∃ d, step x = .ok (some x, d)) :
    ∃ t, mapPhaseE step l = .ok (l, t) := by
  induction l with
  | nil => exact ⟨Tally.zero, rfl⟩
  | cons x xs ih =>
    obtain ⟨d, hd⟩ := h x (List.mem_cons_self x xs)
    obtain ⟨t, ht⟩ := ih (fun y hy => h y (List.mem_cons_of_mem x hy))
    refine ⟨d + t, ?_⟩
    simp only [mapPhaseE]
    rw [hd, ht]

theorem mapPhaseE_mem_rev (step : α → Except String (Option β × Tally))
    (l : List α) (r : List β × Tally) (hr : mapPhaseE step l = .ok r)
    (b : β) (hb : b ∈ r.1) : ∃ x ∈ l, ∃ d, step x = .ok (some b, d) := by
  induction l generalizing r with
  | nil =>
    simp only [mapPhaseE] at hr
    cases hr
    cases hb
  | cons x xs ih =>
    simp only [mapPhaseE] at hr
    cases hx : step x with
    | error e => rw [hx] at hr; simp at hr
    | ok rx =>
      rw [hx] at hr
      cases hrest : mapPhaseE step xs with
      | error e => rw [hrest] at hr; simp at hr
      | ok rrest =>
        rw [hrest] at hr
        simp at hr
        rw [← hr] at hb
        cases hrx : rx.1 with
        | none =>
          rw [hrx] at hb
          obtain ⟨y, hy, dy, hdy⟩ := ih rrest hrest hb
          exact ⟨y, List.mem_cons_of_mem x hy, dy, hdy⟩
        | some y =>
          rw [hrx] at hb
          rcases List.mem_cons.mp hb with hbe | hbm
          · subst hbe
            exact ⟨x, List.mem_cons_self x xs, rx.2, by rw [hx, ← hrx]⟩
          · obtain ⟨z, hz, dz, hdz⟩ := ih rrest hrest hbm
            exact ⟨z, List.mem_cons_of_mem x hz, dz, hdz⟩

theorem modelsBranch_idem (a : FilterArgs) (l : List BaseModel) :
    (modelsBranch a (modelsBranch a l).1).1 = (modelsBranch a l).1 := by
  have hout : ∀ m' ∈ (modelsBranch a l).1,
      ∃ m ∈ (filterPhase (modelFilterStep a) l).1, (modelMapStep a m).1 = some m' := by
    intro m' hm'
    exact (mem_mapPhase _ _ m').mp hm'
  have hkeep : ∀ m' ∈ (modelsBranch a l).1, (modelFilterStep a m').1 = true := by
    intro m' hm'
    obtain ⟨m, hm, hstep⟩ := hout m' hm'
    rw [modelMapStep_some_eq a m m' hstep, modelFilterStep_set_images]
    exact ((mem_filterPhase _ _ m).mp hm).2
  show (mapPhase (modelMapStep a)
    (filterPhase (modelFilterStep a) (modelsBranch a l).1).1).1 = _
  rw [filterPhase_eq_self _ _ hkeep]
  apply mapPhase_eq_self
  intro m' hm'
  obtain ⟨m, hm, hstep⟩ := hout m' hm'
  exact modelMapStep_idem a m m' hstep

theorem imagesBranch_idem (a : FilterArgs) (l : List BaseImage) :
    (imagesBranch a (imagesBranch a l).1).1 = (imagesBranch a l).1 := by
  show (filterPhase (imageStep a) (imagesBranch a l).1).1 = _
  exact filterPhase_eq_self _ _ (fun i hi => ((mem_filterPhase _ _ i).mp hi).2)

theorem articlesBranch_idem (a : FilterArgs) (l : List BaseArticle) :
    (articlesBranch a (articlesBranch a l).1).1 = (articlesBranch a l).1 := by
  show (filterPhase (articleStep a) (articlesBranch a l).1).1 = _
  exact filterPhase_eq_self _ _ (fun i hi => ((mem_filterPhase _ _ i).mp hi).2)

theorem usersBranch_idem (a : FilterArgs) (l : List BaseUser) :
    (usersBranch a (usersBranch a l).1).1 = (usersBranch a l).1 := by
  show (filterPhase (userStep a) (usersBranch a l).1).1 = _
  exact filterPhase_eq_self _ _ (fun i hi => ((mem_filterPhase _ _ i).mp hi).2)

theorem tagsBranch_idem (a : FilterArgs) (l : List BaseTag) :
    (tagsBranch a (tagsBranch a l).1).1 = (tagsBranch a l).1 := by
  show (filterPhase (tagStep a) (tagsBranch a l).1).1 = _
  exact filterPhase_eq_self _ _ (fun i hi => ((mem_filterPhase _ _ i).mp hi).2)

theorem collectionsBranch_idem (a : FilterArgs) (l : List BaseCollection) :
    (collectionsBranch a (collectionsBranch a l).1).1 = (collectionsBranch a l).1 := by
  have hout : ∀ c' ∈ (collectionsBranch a l).1,
      ∃ c ∈ (filterPhase (collectionFilterStep a) l).1,
        (collectionMapStep a c).1 = some c' := by
    intro c' hc'
    exact (mem_mapPhase _ _ c').mp hc'
  have hkeep : ∀ c' ∈ (collectionsBranch a l).1, (collectionFilterStep a c').1 = true := by
    intro c' hc'
    obtain ⟨c, hc, hstep⟩ := hout c' hc'
    rw [collectionMapStep_some_eq a c c' hstep]
    exact collectionFilterStep_imageNone_keep a c _ ((mem_filterPhase _ _ c).mp hc).2
  show (mapPhase (collectionMapStep a)
    (filterPhase (collectionFilterStep a) (collectionsBranch a l).1).1).1 = _
  rw [filterPhase_eq_self _ _ hkeep]
  apply mapPhase_eq_self
  intro c' hc'
  obtain ⟨c, hc, hstep⟩ := hout c' hc'
  exact collectionMapStep_idem a c c' hstep

theorem postsBranch_idem (a : FilterArgs) (l : List BasePost) :
    (postsBranch a (postsBranch a l).1).1 = (postsBranch a l).1 := by
  have hout : ∀ p' ∈ (postsBranch a l).1,
      ∃ p ∈ (filterPhase (postFilterStep a) l).1, (postMapStep a p).1 = some p' := by
    intro p' hp'
    exact (mem_mapPhase _ _ p').mp hp'
  have hkeep : ∀ p' ∈ (postsBranch a l).1, (postFilterStep a p').1 = true := by
    intro p' hp'
    obtain ⟨p, hp, hstep⟩ := hout p' hp'
    rcases postMapStep_some_cases a p p' hstep with ⟨hi, hpe⟩ | ⟨imgs, hi, hpe, hk⟩
    · rw [hpe]
      exact ((mem_filterPhase _ _ p).mp hp).2
    · rw [hpe, postFilterStep_set_images]
      exact ((mem_filterPhase _ _ p).mp hp).2
  show (mapPhase (postMapStep a)
    (filterPhase (postFilterStep a) (postsBranch a l).1).1).1 = _
  rw [filterPhase_eq_self _ _ hkeep]
  apply mapPhase_eq_self
  intro p' hp'
  obtain ⟨p, hp, hstep⟩ := hout p' hp'
  exact postMapStep_idem a p p' hstep

theorem bountiesBranch_idem (a : FilterArgs) (l : List BaseBounty)
    (r : List BaseBounty × Tally) (hr : bountiesBranch a l = .ok r) :
    ∃ t2, bountiesBranch a r.1 = .ok (r.1, t2) := by
  unfold bountiesBranch at hr
  cases hm : mapPhaseE (bountyMapStep a) (filterPhase (bountyFilterStep a) l).1 with
  | error e => rw [hm] at hr; simp at hr
  | ok rm =>
    rw [hm] at hr
    simp at hr
    have hr1 : r.1 = rm.1 := by rw [← hr]
    have horig : ∀ b' ∈ rm.1, ∃ b ∈ (filterPhase (bountyFilterStep a) l).1,
        ∃ d, bountyMapStep a b = .ok (some b', d) :=
      fun b' hb' => mapPhaseE_mem_rev _ _ rm hm b' hb'
    have hkeep : ∀ b' ∈ rm.1, (bountyFilterStep a b').1 = true := by
      intro b' hb'
      obtain ⟨b, hb, d, hd⟩ := horig b' hb'
      obtain ⟨imgs, hi, hbe, hk⟩ := bountyMapStep_some_cases a b b' d hd
      rw [hbe]
      exact bountyFilterStep_filtered_keep a b imgs hi ((mem_filterPhase _ _ b).mp hb).2
    have hidem : ∀ b' ∈ rm.1, ∃ d, bountyMapStep a b' = .ok (some b', d) := by
      intro b' hb'
      obtain ⟨b, hb, d, hd⟩ := horig b' hb'
      exact ⟨Tally.zero, bountyMapStep_idem a b b' d hd⟩
    unfold bountiesBranch
    rw [hr1]
    rw [filterPhase_eq_self _ _ hkeep]
    obtain ⟨t, ht⟩ := mapPhaseE_eq_self _ _ hidem
    rw [ht]
    exact ⟨_, rfl⟩

/-- C8 (confirmed): filtering is idempotent on items: feeding the items list
a successful call produced back into `filterPreferences` with the same
arguments succeeds and returns the very same items list (the tally may of
course be recounted). -/
theorem c8_idempotent (a : FilterArgs) (d : Option TypedData) (out : ItemsOut)
    (t : Tally) (h : filterPreferences a d = .ok (out, t)) :
    ∃ t2, filterPreferences a (ItemsOut.toData out) = .ok (out, t2) := by
  unfold filterPreferences at h ⊢
  by_cases hsc : (d.isNone || a.disabled || a.hiddenPreferences.hiddenLoading) = true
  · rw [if_pos hsc] at h
    simp at h
    refine ⟨Tally.zero, ?_⟩
    rw [← h.1]
    rw [if_pos (by rw [show ItemsOut.toData .empty = none from rfl]; simp)]
  · rw [if_neg hsc] at h
    cases d with
    | none =>
      rw [Bool.not_eq_true] at hsc
      simp at hsc
    | some td =>
      have hds : a.disabled = false ∧ a.hiddenPreferences.hiddenLoading = false := by
        rw [Bool.not_eq_true] at hsc
        simpa using hsc
      cases td with
      | models l =>
        simp at h
        refine ⟨(modelsBranch a (modelsBranch a l).1).2, ?_⟩
        rw [← h.1]
        rw [if_neg (by simp [ItemsOut.toData, hds.1, hds.2])]
        show Except.ok (ItemsOut.models (modelsBranch a (modelsBranch a l).1).1,
            (modelsBranch a (modelsBranch a l).1).2) = _
        rw [modelsBranch_idem]
      | images l =>
        simp at h
        refine ⟨(imagesBranch a (imagesBranch a l).1).2, ?_⟩
        rw [← h.1]
        rw [if_neg (by simp [ItemsOut.toData, hds.1, hds.2])]
        show Except.ok (ItemsOut.images (imagesBranch a (imagesBranch a l).1).1,
            (imagesBranch a (imagesBranch a l).1).2) = _
        rw [imagesBranch_idem]
      | articles l =>
        simp at h
        refine ⟨(articlesBranch a (articlesBranch a l).1).2, ?_⟩
        rw [← h.1]
        rw [if_neg (by simp [ItemsOut.toData, hds.1, hds.2])]
        show Except.ok (ItemsOut.articles (articlesBranch a (articlesBranch a l).1).1,
            (articlesBranch a (articlesBranch a l).1).2) = _
        rw [articlesBranch_idem]
      | users l =>
        simp at h
        refine ⟨(usersBranch a (usersBranch a l).1).2, ?_⟩
        rw [← h.1]
        rw [if_neg (by simp [ItemsOut.toData, hds.1, hds.2])]
        show Except.ok (ItemsOut.users (usersBranch a (usersBranch a l).1).1,
            (usersBranch a (usersBranch a l).1).2) = _
        rw [usersBranch_idem]
      | collections l =>
        simp at h
        refine ⟨(collectionsBranch a (collectionsBranch a l).1).2, ?_⟩
        rw [← h.1]
        rw [if_neg (by simp [ItemsOut.toData, hds.1, hds.2])]
        show Except.ok
            (ItemsOut.collections (collectionsBranch a (collectionsBranch a l).1).1,
            (collectionsBranch a (collectionsBranch a l).1).2) = _
        rw [collectionsBranch_idem]
      | posts l =>
        simp at h
        refine ⟨(postsBranch a (postsBranch a l).1).2, ?_⟩
        rw [← h.1]
        rw [if_neg (by simp [ItemsOut.toData, hds.1, hds.2])]
        show Except.ok (ItemsOut.posts (postsBranch a (postsBranch a l).1).1,
            (postsBranch a (postsBranch a l).1).2) = _
        rw [postsBranch_idem]
      | tags l =>
        simp at h
        refine ⟨(tagsBranch a (tagsBranch a l).1).2, ?_⟩
        rw [← h.1]
        rw [if_neg (by simp [ItemsOut.toData, hds.1, hds.2])]
        show Except.ok (ItemsOut.tags (tagsBranch a (tagsBranch a l).1).1,
            (tagsBranch a (tagsBranch a l).1).2) = _
        rw [tagsBranch_idem]
      | bounties l =>
        have h2 : (match bountiesBranch a l with
            | Except.ok r => Except.ok (ItemsOut.bounties r.1, r.2)
            | Except.error e => Except.error e) = Except.ok (out, t) := h
        cases hb : bountiesBranch a l with
        | error e => rw [hb] at h2; simp at h2
        | ok r =>
          rw [hb] at h2
          simp at h2
          obtain ⟨t2, hidem⟩ := bountiesBranch_idem a l r hb
          refine ⟨t2, ?_⟩
          rw [← h2.1]
          rw [if_neg (by simp [ItemsOut.toData, hds.1, hds.2])]
          show (match bountiesBranch a r.1 with
            | Except.ok rr => Except.ok (ItemsOut.bounties rr.1, rr.2)
            | Except.error e => Except.error e) = _
          rw [hidem]
      | unknown s =>
        simp at h

/-- Witness for C8: one image kept and one filtered; re-filtering the
produced items list returns it unchanged. -/
theorem c8_witness :
    ∃ t2, filterPreferences { hiddenPreferences := {}, browsingLevel := 1 }
      (ItemsOut.toData (.images [{ id := 1, nsfwLevel := 1 }])) =
      .ok (.images [{ id := 1, nsfwLevel := 1 }], t2) :=
  c8_idempotent { hiddenPreferences := {}, browsingLevel := 1 }
    (some (.images [{ id := 1, nsfwLevel := 1 }, { id := 2, nsfwLevel := 8 }]))
    (.images [{ id := 1, nsfwLevel := 1 }]) tallyB rfl
